import Mathlib

/-!
Shallow embedding of the heimdizzy deployment orchestrator (TypeScript) and
proofs about its pipeline contract: the GitOps kustomization patch, hook
ordering, dry-run behaviour, rollback semantics of the service strategy,
health-check polling bounds, node-port fallback of the container push, and
the CLI build/upload phase gating.

Conventions used throughout:
- JavaScript optional values are `Option`; JS truthiness of strings/numbers
  is made explicit through the js* helper functions.
- Each subprocess or network call that mutates external state is recorded as
  an `Effect`; a computation is a pair of the emitted effect trace and an
  `Except` outcome, sequenced with `dbind` (failures keep the effects that
  already happened, mirroring real side effects).
- Outcomes of external collaborators (exit statuses of docker/kubectl/git,
  file-system contents, health probe answers) are supplied by environment
  records so that the control flow of the TypeScript source is the only
  thing the definitions encode.
-/

namespace Heimdizzy

/-! ## JavaScript value semantics -/

/-- Truthiness of an optional JavaScript string: `undefined` and `""` are falsy. -/
def jsPresent : Option String → Bool
  | some s => !(s == "")
  | none => false

/-- Truthiness of an optional JavaScript number: `undefined` and `0` are falsy. -/
def jsPresentNat : Option Nat → Bool
  | some n => !(n == 0)
  | none => false

/-- Evaluation of the JavaScript expression `x || d` for an optional number `x`. -/
def jsOrNat (x : Option Nat) (d : Nat) : Nat :=
  if jsPresentNat x then x.getD 0 else d

/-- Evaluation of `x || d` for optional strings. -/
def jsOrStr (x : Option String) (d : String) : String :=
  if jsPresent x then x.getD "" else d

/-- Truth of the JavaScript test `x !== false` on an optional boolean
(`undefined !== false` is true). -/
def jsNotFalse : Option Bool → Bool
  | some false => false
  | _ => true

/-- JavaScript `parseInt` on an already-trimmed string: value of the longest
leading digit run, `none` standing for NaN. -/
def jsParseInt (s : String) : Option Nat :=
  let ds := s.toList.takeWhile Char.isDigit
  if ds.isEmpty then none
  else some (ds.foldl (fun n c => n * 10 + (c.toNat - 48)) 0)

/-- Whether the first character list starts the second. -/
def charsLeadWith : List Char → List Char → Bool
  | [], _ => true
  | _ :: _, [] => false
  | a :: as, b :: bs => a == b && charsLeadWith as bs

/-- Whether `sub` occurs contiguously somewhere in the list. -/
def charsInclude (sub : List Char) : List Char → Bool
  | [] => charsLeadWith sub []
  | c :: rest => charsLeadWith sub (c :: rest) || charsInclude sub rest

/-- JavaScript `String.prototype.includes`. -/
def strIncludes (s sub : String) : Bool := charsInclude sub.toList s.toList

/-! ## GitOps kustomization descriptor and its image patch

From `GitOpsContainerDeploymentService.deploy` (upload.ts, step 4): the
descriptor's `images` list is searched for an entry whose `name` equals either
`endpoint/repository` or the bare `repository`; the first match has its
`newTag` overwritten, otherwise a fresh `{name, newTag}` entry is appended. -/

structure ImageEntry where
  name : String
  newTag : String
deriving DecidableEq, Repr

structure Kustomization where
  apiVersion : String
  kind : String
  nspace : String
  resources : List String
  images : Option (List ImageEntry)
deriving DecidableEq, Repr

/-- Predicate of the `kustomization.images.find` callback. -/
def imageEntryMatches (endpoint repository : String) (img : ImageEntry) : Bool :=
  img.name == endpoint ++ "/" ++ repository || img.name == repository

/-- Image-list patch: overwrite the tag of the first matching entry, else append. -/
def patchImages (endpoint repository imageTag : String) : List ImageEntry → List ImageEntry
  | [] => [{ name := endpoint ++ "/" ++ repository, newTag := imageTag }]
  | img :: rest =>
    if imageEntryMatches endpoint repository img then
      { img with newTag := imageTag } :: rest
    else
      img :: patchImages endpoint repository imageTag rest

/-- Descriptor-level patch: a missing `images` key is first initialised to `[]`
(the `if (!kustomization.images) kustomization.images = []` guard), then the
list is patched. All unrelated fields are preserved. -/
def patchKustomization (endpoint repository imageTag : String) (k : Kustomization) :
    Kustomization :=
  { k with images := some (patchImages endpoint repository imageTag (k.images.getD [])) }

/-! ## In-cluster registry push target resolution

From the push steps of `GitOpsContainerDeploymentService.deploy` (upload.ts)
and `ContainerDeploymentService.deploy`: when the registry endpoint contains
the in-cluster service suffix, the push goes through `localhost:{nodePort}`;
the port comes from explicit configuration or a cluster query, with default
fallback 30500. The two services combine the sources differently. -/

def inClusterSuffix : String := "svc.cluster.local"

def defaultNodePort : Nat := 30500

/-- GitOps variant: an explicit truthy `registry.nodePort` wins and skips the
query; otherwise `nodePort = parseInt(queryOut) || 30500`. -/
def resolveNodePortGitOps (explicitPort : Option Nat) (queryOut : String) : Nat :=
  if jsPresentNat explicitPort then explicitPort.getD 0
  else jsOrNat (jsParseInt queryOut) defaultNodePort

/-- Direct variant: `parseInt(queryOut) || config.registry?.nodePort || 30500`. -/
def resolveNodePortDirect (explicitPort : Option Nat) (queryOut : String) : Nat :=
  jsOrNat (jsParseInt queryOut) (jsOrNat explicitPort defaultNodePort)

/-- Host the GitOps container strategy pushes through. -/
def gitOpsPushHost (endpoint : String) (explicitPort : Option Nat)
    (queryOut : String) : String :=
  if strIncludes endpoint inClusterSuffix then
    "localhost:" ++ toString (resolveNodePortGitOps explicitPort queryOut)
  else endpoint

/-- Host the direct container strategy pushes through. -/
def directPushHost (endpoint : String) (explicitPort : Option Nat)
    (queryOut : String) : String :=
  if strIncludes endpoint inClusterSuffix then
    "localhost:" ++ toString (resolveNodePortDirect explicitPort queryOut)
  else endpoint

/-! ## Effects and failure-aware traces -/

/-- Externally visible side-effecting calls made by the pipeline. Read-only
queries (git rev-parse, kubectl get, glob, file reads) are not effects. -/
inductive Effect where
  | hookExec (name command : String)
  | shellBuild (command : String)
  | s3Put (key : String)
  | cdnInvalidate (distributionId : String)
  | dockerBuild (image : String)
  | dockerTag (src dst : String)
  | dockerPush (image : String)
  | dockerLogin (registry : String)
  | dockerRmi (image : String)
  | fsWrite (path : String)
  | fsDelete (path : String)
  | gitAdd (path : String)
  | gitCommit (message : String)
  | gitPush
  | kubectlApply (path : String)
  | kubectlWaitJob (job : String)
  | kubectlJobLogs (job : String)
  | kubectlDeleteJob (job : String)
  | kubectlRolloutRestart (deployment : String)
  | kubectlRolloutStatus (deployment : String)
  | kubectlRolloutUndo (deployment : String)
  | kubectlSetImage (deployment : String)
  | kubectlDeletePods (selector : String)
  | healthProbe (attempt : Nat)
  | npmWriteNpmrc
  | npmPublishCmd (registry : String)
  | npmDeleteNpmrc
  | buildxSetup
  | buildxBuildPush (repository : String)
  | buildxRemove
deriving DecidableEq, Repr

/-- True exactly for user-hook subprocess executions. -/
def Effect.isHook : Effect → Bool
  | .hookExec _ _ => true
  | _ => false

/-- Errors raised by the modelled code paths. `rollbackFailed` exists to state
that it is never the error surfaced by the service strategy; no modelled code
path raises it. -/
inductive DeployError where
  | hookFailed (name : String)
  | buildFailed
  | dockerfileNotFound (path : String)
  | dockerBuildFailed
  | dockerTagFailed
  | dockerLoginFailed
  | dockerPushFailed
  | nodePortQueryFailed
  | migrationApplyFailed
  | migrationWaitFailed
  | migrationFailed
  | migrationCleanupFailed
  | rolloutRestartFailed
  | rolloutStatusFailed
  | healthCheckFailed
  | rollbackFailed
  | buildDirNotFound (dir : String)
  | putObjectFailed (index : Nat)
  | verificationFailed (deployed required : Nat)
  | webConfigMissing
  | containerConfigMissing
  | npmConfigMissing
  | dockerhubConfigMissing
  | projectRootMissing
  | packageJsonInvalid
  | npmTokenMissing
  | npmPublishFailed
  | dockerhubCredsMissing
  | buildxFailed
  | kubernetesFailed
  | gitopsFailed (inner : DeployError)
  | containerFailed (inner : DeployError)
  | npmFailed (inner : DeployError)
  | dockerhubFailed (inner : DeployError)
deriving DecidableEq, Repr

/-- Computation that emits a trace of effects and either returns a value or
fails; effects emitted before a failure are kept (they already happened). -/
def Dep (α : Type) : Type := List Effect × Except DeployError α

def dpure {α : Type} (x : α) : Dep α := ([], Except.ok x)

def dthrow {α : Type} (e : DeployError) : Dep α := ([], Except.error e)

def demit (eff : Effect) : Dep Unit := ([eff], Except.ok ())

def dbind {α β : Type} (a : Dep α) (f : α → Dep β) : Dep β :=
  match a with
  | (tr, Except.error e) => (tr, Except.error e)
  | (tr, Except.ok x) =>
    let b := f x
    (tr ++ b.1, b.2)

/-- Try/catch: the handler sees the error; effects of the failed body are kept. -/
def dcatch {α : Type} (a : Dep α) (h : DeployError → Dep α) : Dep α :=
  match a with
  | (tr, Except.error e) =>
    let b := h e
    (tr ++ b.1, b.2)
  | (tr, Except.ok x) => (tr, Except.ok x)

/-! ## Hook runner

From `HooksService.executeHooks`: hooks run strictly in list order; each
hook's shell command is one subprocess execution (recorded before its exit
status is known); the first failing command raises `hookFailed` immediately,
so no later hook in the list runs. `cmdOk` gives each command's exit status. -/

structure Hook where
  name : String
  description : Option String
  command : String
deriving DecidableEq, Repr

def executeHooks (cmdOk : String → Bool) : List Hook → Dep Unit
  | [] => dpure ()
  | h :: rest =>
    dbind (demit (Effect.hookExec h.name h.command)) fun _ =>
      if cmdOk h.command then executeHooks cmdOk rest
      else dthrow (DeployError.hookFailed h.name)

/-- Conditional hook execution, as in `if (hooks?.pre_deploy) await executeHooks(...)`. -/
def runOptHooks (cmdOk : String → Bool) : Option (List Hook) → Dep Unit
  | some hooks => executeHooks cmdOk hooks
  | none => dpure ()

/-! ## Web deployment strategy

From `WebDeploymentService.deploy` (build.ts): optional build command, scan of
the build directory (mock file list under dry run), per-file S3 upload,
optional CloudFront invalidation (failure swallowed), then post-deploy
verification gated by `verification?.enabled !== false && !dryRun` with
`minFiles = verification?.minioCheck?.minFiles || 5`. -/

structure CloudFrontConfig where
  distributionId : Option String
  paths : List String
deriving DecidableEq, Repr

structure MinioCheckConfig where
  enabled : Option Bool
  minFiles : Option Nat
deriving DecidableEq, Repr

structure EndpointCheck where
  path : String
  expectedStatus : Nat
  contains : Option String
deriving DecidableEq, Repr

structure VerificationConfig where
  enabled : Option Bool
  endpoints : Option (List EndpointCheck)
  minioCheck : Option MinioCheckConfig
deriving DecidableEq, Repr

/-- Web deployment configuration; `webPath` is the `path` S3 key base field. -/
structure WebConfig where
  buildCommand : Option String
  buildDir : String
  indexFile : String
  webPath : Option String
  cloudfront : Option CloudFrontConfig
  cacheControlHtml : String
  cacheControlAssets : String
  verification : Option VerificationConfig
deriving DecidableEq, Repr

/-- Environment facts for one web deployment run: build command exit status and
duration, build directory contents, S3 put outcomes by position, CloudFront
outcome, wall-clock deploy duration. -/
structure WebEnv where
  buildOk : Bool
  buildDuration : Nat
  buildDirExists : Bool
  files : List String
  putOk : Nat → Bool
  invalidationOk : Bool
  invalidationId : String
  deployDuration : Nat

structure WebResult where
  deployedFiles : Nat
  invalidationId : Option String
  buildTime : Option Nat
  deployTime : Nat
deriving DecidableEq, Repr

def webBuildStep (env : WebEnv) (cfg : WebConfig) (dryRun : Bool) : Dep (Option Nat) :=
  if jsPresent cfg.buildCommand then
    if !dryRun then
      dbind (demit (Effect.shellBuild (cfg.buildCommand.getD ""))) fun _ =>
        if env.buildOk then dpure (some env.buildDuration) else dthrow DeployError.buildFailed
    else dpure (some 0)
  else dpure none

/-- Mock file list used instead of globbing when dryRun is set. -/
def mockDryRunFiles : List String := ["index.html", "assets/app.js", "css/style.css"]

def webScanStep (env : WebEnv) (cfg : WebConfig) (dryRun : Bool) : Dep (List String) :=
  if !dryRun then
    if env.buildDirExists then dpure env.files
    else dthrow (DeployError.buildDirNotFound cfg.buildDir)
  else dpure mockDryRunFiles

def s3KeyFor (webPath : Option String) (file : String) : String :=
  if jsPresent webPath then webPath.getD "" ++ "/" ++ file else file

/-- Upload loop; `n` is the running `deployedFiles` counter, which also indexes
`putOk`. Under dry run the counter still advances but nothing is written. -/
def uploadFiles (putOk : Nat → Bool) (webPath : Option String) (dryRun : Bool) :
    List String → Nat → Dep Nat
  | [], n => dpure n
  | f :: rest, n =>
    if !dryRun then
      dbind (demit (Effect.s3Put (s3KeyFor webPath f))) fun _ =>
        if putOk n then uploadFiles putOk webPath dryRun rest (n + 1)
        else dthrow (DeployError.putObjectFailed n)
    else uploadFiles putOk webPath dryRun rest (n + 1)

def webInvalidationStep (env : WebEnv) (cfg : WebConfig) (dryRun : Bool) :
    Dep (Option String) :=
  match cfg.cloudfront with
  | none => dpure none
  | some cf =>
    if jsPresent cf.distributionId then
      if !dryRun then
        dbind (demit (Effect.cdnInvalidate (cf.distributionId.getD ""))) fun _ =>
          if env.invalidationOk then dpure (some env.invalidationId) else dpure none
      else dpure (some "dry-run-invalidation-id")
    else dpure none

def webVerificationStep (cfg : WebConfig) (dryRun : Bool) (deployedFiles : Nat) : Dep Unit :=
  if jsNotFalse (cfg.verification.bind VerificationConfig.enabled) && !dryRun then
    if jsNotFalse ((cfg.verification.bind VerificationConfig.minioCheck).bind
        MinioCheckConfig.enabled) then
      let minFiles := jsOrNat ((cfg.verification.bind VerificationConfig.minioCheck).bind
        MinioCheckConfig.minFiles) 5
      if deployedFiles < minFiles then
        dthrow (DeployError.verificationFailed deployedFiles minFiles)
      else dpure ()
    else dpure ()
  else dpure ()

def webDeploy (env : WebEnv) (cfg : WebConfig) (dryRun : Bool) : Dep WebResult :=
  dbind (webBuildStep env cfg dryRun) fun buildTime =>
  dbind (webScanStep env cfg dryRun) fun files =>
  dbind (uploadFiles env.putOk cfg.webPath dryRun files 0) fun deployedFiles =>
  dbind (webInvalidationStep env cfg dryRun) fun invalidationId =>
  dbind (webVerificationStep cfg dryRun deployedFiles) fun _ =>
  dpure { deployedFiles := deployedFiles, invalidationId := invalidationId,
          buildTime := buildTime, deployTime := env.deployDuration }

/-! ## Deployment result records and the hook configuration -/

structure HooksCfg where
  pre_build : Option (List Hook)
  post_build : Option (List Hook)
  pre_deploy : Option (List Hook)
  post_deploy : Option (List Hook)
deriving DecidableEq, Repr

structure ContainerResult where
  imageName : String
  imageTag : String
  manifestsApplied : Bool
  podCount : Nat
  nspace : String
deriving DecidableEq, Repr

structure NpmResult where
  packageName : String
  version : String
  registry : String
  tag : String
  published : Bool
deriving DecidableEq, Repr

structure DockerHubResult where
  repository : String
  tag : String
  additionalTags : List String
  pushed : Bool
  imageName : String
deriving DecidableEq, Repr

structure DeploymentResult where
  podCount : Option Nat
  podStatus : Option String
  skipped : Option Bool
  deployedFiles : Option Nat
  invalidationId : Option String
  buildTime : Option Nat
  deployTime : Option Nat
  container : Option ContainerResult
  npm : Option NpmResult
  dockerhub : Option DockerHubResult
deriving DecidableEq, Repr

def emptyDeploymentResult : DeploymentResult :=
  { podCount := none, podStatus := none, skipped := none, deployedFiles := none,
    invalidationId := none, buildTime := none, deployTime := none,
    container := none, npm := none, dockerhub := none }

/-- Dispatch wrapper `DeploymentService.deployWeb`: pre-deploy hooks, the web
strategy, post-deploy hooks (rethrown unchanged on failure), then the result
record. Hooks run regardless of `dryRun`. -/
def dsDeployWeb (cmdOk : String → Bool) (env : WebEnv) (hooks : Option HooksCfg)
    (web : Option WebConfig) (dryRun : Bool) : Dep DeploymentResult :=
  match web with
  | none => dthrow DeployError.webConfigMissing
  | some cfg =>
    dbind (runOptHooks cmdOk (hooks.bind HooksCfg.pre_deploy)) fun _ =>
    dbind (webDeploy env cfg dryRun) fun webResult =>
    dbind (runOptHooks cmdOk (hooks.bind HooksCfg.post_deploy)) fun _ =>
    dpure { emptyDeploymentResult with
            deployedFiles := some webResult.deployedFiles,
            invalidationId := webResult.invalidationId,
            buildTime := webResult.buildTime,
            deployTime := some webResult.deployTime }

/-- Object-storage write effects, for counting writes that already happened. -/
def Effect.isS3Put : Effect → Bool
  | .s3Put _ => true
  | _ => false

def countS3Puts : List Effect → Nat
  | [] => 0
  | e :: rest => (if Effect.isS3Put e then 1 else 0) + countS3Puts rest

/-- Scenario configuration of the spec's static-site test (build command
`echo build`, `buildDir dist`, minioCheck.minFiles 5, schema-default cache
control and enabled flags, no CloudFront). -/
def c7Config : WebConfig :=
  { buildCommand := some "echo build"
    buildDir := "dist"
    indexFile := "index.html"
    webPath := none
    cloudfront := none
    cacheControlHtml := "no-cache, no-store, must-revalidate"
    cacheControlAssets := "public, max-age=31536000"
    verification := some
      { enabled := some true
        endpoints := none
        minioCheck := some { enabled := some true, minFiles := some 5 } } }

/-! ## Managed-runtime (service) deployment strategy

From `ServiceDeploymentService` (service-deployment.ts): build and tag the
image, optional registry login, push both tags, run a bounded migration job,
rollout-restart the deployment and wait for it, then poll the health endpoint
up to 30 times 10 seconds apart. Any failure in the try block triggers one
best-effort `kubectl rollout undo` whose own failure is only logged; the
original error is rethrown. -/

/-- Evaluation of `s || d` for a plain (possibly empty) JavaScript string. -/
def jsOrStrS (s d : String) : String := if s == "" then d else s

structure SvcRegistry where
  endpoint : String
  repository : String
  username : Option String
  password : Option String
deriving DecidableEq, Repr

/-- Exit statuses and outputs of every external call one service deployment
run makes; `healthAttempt i` is whether the i-th health probe reports
`status == "healthy"` (any other outcome of an attempt retries identically). -/
structure SvcEnv where
  buildOk : Bool
  tagFullOk : Bool
  tagLatestOk : Bool
  loginOk : Bool
  pushFullOk : Bool
  pushLatestOk : Bool
  applyOk : Bool
  waitOk : Bool
  jobStatus : String
  deleteJobOk : Bool
  restartOk : Bool
  statusOk : Bool
  healthAttempt : Nat → Bool
  podCountOutput : String
  rollbackOk : Bool
  timestamp : String
  now : Nat

structure ServiceResult where
  imageName : String
  imageTag : String
  migrationCompleted : Bool
  deploymentRestarted : Bool
  healthCheckPassed : Bool
  podCount : Nat
  nspace : String
  gitHash : Option String
  buildTimestamp : Option String
deriving DecidableEq, Repr

/-- Health polling retry budget (`maxRetries` in `verifyHealth`). -/
def maxHealthRetries : Nat := 30

/-- Fixed delay between health polling attempts, in milliseconds. -/
def healthRetryDelayMs : Nat := 10000

/-- Polling loop of `verifyHealth`: attempt `i`, then `fuel - 1` further
attempts; stops at the first healthy answer, gives up when fuel runs out. -/
def verifyHealthLoop (healthy : Nat → Bool) : Nat → Nat → List Effect × Bool
  | _, 0 => ([], false)
  | i, fuel + 1 =>
    if healthy i then ([Effect.healthProbe i], true)
    else
      let rest := verifyHealthLoop healthy (i + 1) fuel
      (Effect.healthProbe i :: rest.1, rest.2)

def verifyHealth (healthy : Nat → Bool) : List Effect × Bool :=
  verifyHealthLoop healthy 0 maxHealthRetries

/-- Health check as a step of the deployment (the loop itself never throws;
the caller turns `false` into an error). -/
def svcHealthStep (healthy : Nat → Bool) : Dep Bool :=
  ((verifyHealth healthy).1, Except.ok (verifyHealth healthy).2)

/-- Try/finally where the finaliser only emits effects (the manifest file
cleanup); the body's outcome is preserved. -/
def dfinally {α : Type} (a : Dep α) (fin : Dep Unit) : Dep α :=
  (a.1 ++ fin.1, a.2)

def jobManifestPath (jobName : String) : String := "/tmp/" ++ jobName ++ ".yaml"

/-- Migration job of the service strategy: write the manifest, apply it, wait
for completion, inspect the terminal condition (fetching logs and returning
`false` when it is not `Complete`), delete the job on success; the manifest
file is removed in a `finally`. -/
def runMigrationJob (env : SvcEnv) (jobName : String) : Dep Bool :=
  dbind (demit (Effect.fsWrite (jobManifestPath jobName))) fun _ =>
  dfinally
    (dbind (demit (Effect.kubectlApply (jobManifestPath jobName))) fun _ =>
     if !env.applyOk then dthrow DeployError.migrationApplyFailed else
     dbind (demit (Effect.kubectlWaitJob jobName)) fun _ =>
     if !env.waitOk then dthrow DeployError.migrationWaitFailed else
     if env.jobStatus != "Complete" then
       dbind (demit (Effect.kubectlJobLogs jobName)) fun _ => dpure false
     else
       dbind (demit (Effect.kubectlDeleteJob jobName)) fun _ =>
       if env.deleteJobOk then dpure true else dthrow DeployError.migrationCleanupFailed)
    (demit (Effect.fsDelete (jobManifestPath jobName)))

/-- Try block of `ServiceDeploymentService.deploy`. -/
def svcDeployBody (env : SvcEnv) (serviceName nspace : String)
    (registry : SvcRegistry) (imageTag gitSha : String) : Dep ServiceResult :=
  let fullImageName := registry.endpoint ++ "/" ++ registry.repository ++ ":" ++ imageTag
  let latestImageName := registry.endpoint ++ "/" ++ registry.repository ++ ":latest"
  let jobName := serviceName ++ "-migration-" ++ toString env.now
  dbind (demit (Effect.dockerBuild (serviceName ++ ":" ++ imageTag))) fun _ =>
  if !env.buildOk then dthrow DeployError.dockerBuildFailed else
  dbind (demit (Effect.dockerTag (serviceName ++ ":" ++ imageTag) fullImageName)) fun _ =>
  if !env.tagFullOk then dthrow DeployError.dockerTagFailed else
  dbind (demit (Effect.dockerTag (serviceName ++ ":" ++ imageTag) latestImageName)) fun _ =>
  if !env.tagLatestOk then dthrow DeployError.dockerTagFailed else
  dbind (if jsPresent registry.username && jsPresent registry.password then
      dbind (demit (Effect.dockerLogin registry.endpoint)) fun _ =>
      if env.loginOk then dpure () else dthrow DeployError.dockerLoginFailed
    else dpure ()) fun _ =>
  dbind (demit (Effect.dockerPush fullImageName)) fun _ =>
  if !env.pushFullOk then dthrow DeployError.dockerPushFailed else
  dbind (demit (Effect.dockerPush latestImageName)) fun _ =>
  if !env.pushLatestOk then dthrow DeployError.dockerPushFailed else
  dbind (runMigrationJob env jobName) fun migrationResult =>
  if !migrationResult then dthrow DeployError.migrationFailed else
  dbind (demit (Effect.kubectlRolloutRestart serviceName)) fun _ =>
  if !env.restartOk then dthrow DeployError.rolloutRestartFailed else
  dbind (demit (Effect.kubectlRolloutStatus serviceName)) fun _ =>
  if !env.statusOk then dthrow DeployError.rolloutStatusFailed else
  dbind (svcHealthStep env.healthAttempt) fun healthResult =>
  if !healthResult then dthrow DeployError.healthCheckFailed else
  dpure { imageName := fullImageName, imageTag := imageTag,
          migrationCompleted := true, deploymentRestarted := true,
          healthCheckPassed := true,
          podCount := (jsParseInt env.podCountOutput).getD 0,
          nspace := nspace, gitHash := some gitSha,
          buildTimestamp := some env.timestamp }

/-- Full `ServiceDeploymentService.deploy`: dry run returns a placeholder
result before any effect; otherwise the try block runs, and on any failure one
rollback (`kubectl rollout undo`) is attempted — its own failure is only
logged (`rollbackOk` influences nothing) — and the original error rethrown. -/
def svcDeploy (env : SvcEnv) (serviceName nspace : String) (registry : SvcRegistry)
    (gitHash : String) (dryRun : Bool) : Dep ServiceResult :=
  let imageTag := jsOrStrS gitHash "latest"
  let fullImageName := registry.endpoint ++ "/" ++ registry.repository ++ ":" ++ imageTag
  if dryRun then
    dpure { imageName := fullImageName, imageTag := imageTag,
            migrationCompleted := false, deploymentRestarted := false,
            healthCheckPassed := false, podCount := 0, nspace := nspace,
            gitHash := none, buildTimestamp := none }
  else
    dcatch (svcDeployBody env serviceName nspace registry imageTag
        (jsOrStrS gitHash "unknown"))
      fun e => dbind (demit (Effect.kubectlRolloutUndo serviceName)) fun _ => dthrow e

/-- Rollback (rollout undo) effects, for counting compensating actions. -/
def Effect.isUndo : Effect → Bool
  | .kubectlRolloutUndo _ => true
  | _ => false

def countRollbackCalls : List Effect → Nat
  | [] => 0
  | e :: rest => (if Effect.isUndo e then 1 else 0) + countRollbackCalls rest

/-! ## CLI build and upload phase gating

From the `deploy` command action of the CLI entry point: the Builder runs only
when `--skip-build` is unset, the configuration has a `build` section, and the
deployment type is not in the skip list `[web, container, npm, dockerhub]`;
`buildSkipped` is notified in the `else if (options.skipBuild)` branch; the
upload phase is gated analogously, without a config requirement. -/

structure CliOptions where
  skipBuild : Bool
  skipUpload : Bool
  dryRun : Bool
deriving DecidableEq, Repr

def skipBuildTypes : List String := ["web", "container", "npm", "dockerhub"]

def skipUploadTypes : List String := ["web", "container", "npm", "dockerhub"]

structure CliPhaseTrace where
  builderInvoked : Bool
  buildSkippedNotified : Bool
  uploadInvoked : Bool
  uploadSkippedNotified : Bool
deriving DecidableEq, Repr

def cliBuildUploadPhase (opts : CliOptions) (hasBuildConfig : Bool)
    (deploymentType : String) : CliPhaseTrace :=
  let buildRuns := !opts.skipBuild && hasBuildConfig &&
    !(skipBuildTypes.contains deploymentType)
  let uploadRuns := !opts.skipUpload && !(skipUploadTypes.contains deploymentType)
  { builderInvoked := buildRuns
    buildSkippedNotified := !buildRuns && opts.skipBuild
    uploadInvoked := uploadRuns
    uploadSkippedNotified := !uploadRuns && opts.skipUpload }

/-- Build-skip condition as the claim words it (spec side, kept for the
comparison): skip exactly when skipBuild is set or the deployment type is one
of web, container, npm, dockerhub, or the service type with embedded build. -/
def claimedBuildSkip (skipBuild : Bool) (deploymentType : String) : Bool :=
  skipBuild ||
    (["web", "container", "npm", "dockerhub", "service"].contains deploymentType)

/-- Invariant of the service strategy's try block: its trace contains no
rollback call and it never fails with a rollback-related error. -/
def SvcBodyInv {α : Type} (a : Dep α) : Prop :=
  (∀ e ∈ a.1, Effect.isUndo e = false) ∧
  ∀ err, a.2 = Except.error err → err ≠ DeployError.rollbackFailed

/-- Service environment in which every step succeeds except that no health
probe ever reports healthy; rollback itself also fails. -/
def svcEnvHealthFail : SvcEnv :=
  { buildOk := true, tagFullOk := true, tagLatestOk := true, loginOk := true,
    pushFullOk := true, pushLatestOk := true, applyOk := true, waitOk := true,
    jobStatus := "Complete", deleteJobOk := true, restartOk := true,
    statusOk := true, healthAttempt := fun _ => false, podCountOutput := "2",
    rollbackOk := false, timestamp := "2024-01-01T00:00:00Z", now := 1700000000000 }

def svcRegistryDemo : SvcRegistry :=
  { endpoint := "ghcr.io", repository := "acme/api", username := none, password := none }

/-! ## Container deployment configuration -/

structure RegistryConfig where
  endpoint : String
  repository : String
  tag : String
  insecure : Bool
  nodePort : Option Nat
  nspace : String
deriving DecidableEq, Repr

structure KubernetesConfig where
  nspace : String
  useExistingManifests : Bool
  gitOpsPath : Option String
  deploymentTimeout : Option Nat
  fluxNamespace : String
deriving DecidableEq, Repr

structure ContainerConfig where
  registry : RegistryConfig
  kubernetes : KubernetesConfig
  gitops : Option Bool
deriving DecidableEq, Repr

structure GitOpsResult where
  imageName : String
  imageTag : String
  manifestUpdated : Bool
  commitHash : String
  prCreated : Bool
deriving DecidableEq, Repr

/-! ## GitOps container strategy

From `GitOpsContainerDeploymentService.deploy` (upload.ts): under dry run it
returns a placeholder result before any effect; otherwise pre-deploy hooks,
docker build (after a Dockerfile existence check), post-build hooks, two tags,
push (through the NodePort host for in-cluster registries), locate-or-create
and patch the kustomization descriptor, advisory git commit-and-push,
post-deploy hooks, and a local image removal whose failure is ignored. Any
failure in the try block is rethrown wrapped. -/

inductive GitOutcome where
  | ok
  | nothingToCommit
  | failed
deriving DecidableEq, Repr

structure GitOpsEnv where
  now : Nat
  cwd : String
  dockerfileExists : Bool
  dockerBuildOk : Bool
  tagFullOk : Bool
  tagLatestOk : Bool
  nodePortQueryOk : Bool
  nodePortQueryOut : String
  tagNodePortOk : Bool
  tagNodePortLatestOk : Bool
  pushOk : Bool
  pushLatestOk : Bool
  fileExists : String → Bool
  readKustomization : String → Kustomization
  gitOutcome : GitOutcome
  rmiOk : Bool

def joinPath (a b : String) : String := a ++ "/" ++ b

/-- Directory part of a path (everything before the last separator). -/
def dirnameOf (p : String) : String :=
  String.intercalate "/" ((p.splitOn "/").dropLast)

/-- Candidate kustomization paths: a configured `gitOpsPath` (completed with
the file name when needed) under the project root and bare; otherwise the
convention path for both rooted and unrooted forms. The search uses the
per-deployment config's `gitOpsBasePath`, defaulting to `k8s/clusters/main`. -/
def kustomizationCandidates (cfg : ContainerConfig) (fullProjectRoot : Option String)
    (deployGitOpsBasePath : Option String) (cwd serviceName : String) : List String :=
  if jsPresent cfg.kubernetes.gitOpsPath then
    let p := cfg.kubernetes.gitOpsPath.getD ""
    let customPath :=
      if p.endsWith "/kustomization.yaml" then p else joinPath p "kustomization.yaml"
    [joinPath (jsOrStr fullProjectRoot cwd) customPath, customPath]
  else
    let root := jsOrStr fullProjectRoot cwd
    let base := jsOrStr deployGitOpsBasePath "k8s/clusters/main"
    let rel := base ++ "/infrastructure/" ++ cfg.kubernetes.nspace ++ "/services/" ++
      serviceName ++ "/kustomization.yaml"
    [root ++ "/" ++ rel, rel]

def findKustomizationPath (fileExists : String → Bool) (cwd : String) :
    List String → Option String
  | [] => none
  | p :: rest =>
    let fullPath := if p.startsWith "/" then p else joinPath (joinPath cwd "../../..") p
    if fileExists fullPath then some fullPath
    else findKustomizationPath fileExists cwd rest

/-- Directory a fresh kustomization is created in when none was found; this
branch takes `gitOpsBasePath` from the full config, unlike the search. -/
def gitopsServiceDir (cfg : ContainerConfig)
    (fullProjectRoot fullGitOpsBasePath : Option String) (cwd serviceName : String) :
    String :=
  if jsPresent cfg.kubernetes.gitOpsPath then
    let p := cfg.kubernetes.gitOpsPath.getD ""
    let customDir := if p.endsWith "/kustomization.yaml" then dirnameOf p else p
    joinPath (jsOrStr fullProjectRoot cwd) customDir
  else
    (jsOrStr fullProjectRoot cwd) ++ "/" ++
      (jsOrStr fullGitOpsBasePath "k8s/clusters/main") ++ "/infrastructure/" ++
      cfg.kubernetes.nspace ++ "/services/" ++ serviceName

/-- Fresh kustomization synthesized when no descriptor exists (resource list
hard-coded in the source). -/
def defaultKustomization (nspace imageName imageTag : String) : Kustomization :=
  { apiVersion := "kustomize.config.k8s.io/v1beta1", kind := "Kustomization",
    nspace := nspace,
    resources := ["email-service.yaml", "email-configmap.yaml", "email-hpa.yaml",
                  "email-network-policy.yaml"],
    images := some [{ name := imageName, newTag := imageTag }] }

/-- Locate-or-create and patch the descriptor; returns the path written and
the descriptor written there. -/
def gitopsManifestStep (env : GitOpsEnv) (cfg : ContainerConfig)
    (fullProjectRoot deployGitOpsBasePath fullGitOpsBasePath : Option String)
    (serviceName imageTag : String) : Dep (String × Kustomization) :=
  let imageName := cfg.registry.endpoint ++ "/" ++ cfg.registry.repository
  match findKustomizationPath env.fileExists env.cwd
      (kustomizationCandidates cfg fullProjectRoot deployGitOpsBasePath
        env.cwd serviceName) with
  | none =>
    let kPath := joinPath (gitopsServiceDir cfg fullProjectRoot fullGitOpsBasePath
      env.cwd serviceName) "kustomization.yaml"
    dbind (demit (Effect.fsWrite kPath)) fun _ =>
    dpure (kPath, defaultKustomization cfg.kubernetes.nspace imageName imageTag)
  | some kPath =>
    let k := patchKustomization cfg.registry.endpoint cfg.registry.repository imageTag
      (env.readKustomization kPath)
    dbind (demit (Effect.fsWrite kPath)) fun _ =>
    dpure (kPath, k)

/-- Commit-and-push of the patched descriptor: "nothing to commit" and any
other VCS failure are both swallowed (logged), never fatal. -/
def gitCommitStep (outcome : GitOutcome) (kPath commitMessage : String) : Dep Unit :=
  match outcome with
  | .ok =>
    dbind (demit (Effect.gitAdd kPath)) fun _ =>
    dbind (demit (Effect.gitCommit commitMessage)) fun _ =>
    demit Effect.gitPush
  | .nothingToCommit =>
    dbind (demit (Effect.gitAdd kPath)) fun _ =>
    demit (Effect.gitCommit commitMessage)
  | .failed =>
    dbind (demit (Effect.gitAdd kPath)) fun _ =>
    demit (Effect.gitCommit commitMessage)

/-- Push step of the GitOps strategy: through `localhost:{nodePort}` (tagging
the two NodePort names first) for in-cluster registries, directly otherwise.
The NodePort cluster query runs only when no explicit port is configured; a
failure of the query subprocess itself is fatal. -/
def gitopsPushStep (env : GitOpsEnv) (registry : RegistryConfig)
    (serviceName imageTag : String) : Dep Unit :=
  if strIncludes registry.endpoint inClusterSuffix then
    dbind (if jsPresentNat registry.nodePort then dpure ()
      else if env.nodePortQueryOk then dpure ()
      else dthrow DeployError.nodePortQueryFailed) fun _ =>
    let host := gitOpsPushHost registry.endpoint registry.nodePort env.nodePortQueryOut
    let nodePortImage := host ++ "/" ++ registry.repository ++ ":" ++ imageTag
    let nodePortLatest := host ++ "/" ++ registry.repository ++ ":latest"
    dbind (demit (Effect.dockerTag (serviceName ++ ":" ++ imageTag) nodePortImage)) fun _ =>
    if !env.tagNodePortOk then dthrow DeployError.dockerTagFailed else
    dbind (demit (Effect.dockerTag (serviceName ++ ":" ++ imageTag) nodePortLatest)) fun _ =>
    if !env.tagNodePortLatestOk then dthrow DeployError.dockerTagFailed else
    dbind (demit (Effect.dockerPush nodePortImage)) fun _ =>
    if !env.pushOk then dthrow DeployError.dockerPushFailed else
    dbind (demit (Effect.dockerPush nodePortLatest)) fun _ =>
    if !env.pushLatestOk then dthrow DeployError.dockerPushFailed else dpure ()
  else
    dbind (demit (Effect.dockerPush
        (registry.endpoint ++ "/" ++ registry.repository ++ ":" ++ imageTag))) fun _ =>
    if !env.pushOk then dthrow DeployError.dockerPushFailed else
    dbind (demit (Effect.dockerPush
        (registry.endpoint ++ "/" ++ registry.repository ++ ":latest"))) fun _ =>
    if !env.pushLatestOk then dthrow DeployError.dockerPushFailed else dpure ()

def gitopsDeploy (cmdOk : String → Bool) (env : GitOpsEnv) (serviceName : String)
    (cfg : ContainerConfig) (gitHash : String) (dryRun : Bool)
    (hooks : Option HooksCfg) (buildDockerfile : Option String)
    (fullProjectRoot deployGitOpsBasePath fullGitOpsBasePath : Option String) :
    Dep GitOpsResult :=
  let imageTag := gitHash ++ "-" ++ toString env.now
  let fullImageName :=
    cfg.registry.endpoint ++ "/" ++ cfg.registry.repository ++ ":" ++ imageTag
  let latestImageName := cfg.registry.endpoint ++ "/" ++ cfg.registry.repository ++ ":latest"
  if dryRun then
    dpure { imageName := fullImageName, imageTag := imageTag,
            manifestUpdated := false, commitHash := gitHash, prCreated := false }
  else
    dcatch
      (dbind (runOptHooks cmdOk (hooks.bind HooksCfg.pre_deploy)) fun _ =>
       if !env.dockerfileExists then
         dthrow (DeployError.dockerfileNotFound (jsOrStr buildDockerfile "Dockerfile"))
       else
       dbind (demit (Effect.dockerBuild (serviceName ++ ":" ++ imageTag))) fun _ =>
       if !env.dockerBuildOk then dthrow DeployError.dockerBuildFailed else
       dbind (runOptHooks cmdOk (hooks.bind HooksCfg.post_build)) fun _ =>
       dbind (demit (Effect.dockerTag (serviceName ++ ":" ++ imageTag) fullImageName)) fun _ =>
       if !env.tagFullOk then dthrow DeployError.dockerTagFailed else
       dbind (demit (Effect.dockerTag (serviceName ++ ":" ++ imageTag) latestImageName)) fun _ =>
       if !env.tagLatestOk then dthrow DeployError.dockerTagFailed else
       dbind (gitopsPushStep env cfg.registry serviceName imageTag) fun _ =>
       dbind (gitopsManifestStep env cfg fullProjectRoot deployGitOpsBasePath
         fullGitOpsBasePath serviceName imageTag) fun kp =>
       dbind (gitCommitStep env.gitOutcome kp.1
         ("chore(k8s): update " ++ serviceName ++ " image to " ++ imageTag)) fun _ =>
       dbind (runOptHooks cmdOk (hooks.bind HooksCfg.post_deploy)) fun _ =>
       dbind (demit (Effect.dockerRmi (serviceName ++ ":" ++ imageTag))) fun _ =>
       dpure { imageName := fullImageName, imageTag := imageTag,
               manifestUpdated := true, commitHash := gitHash, prCreated := false })
      fun e => dthrow (DeployError.gitopsFailed e)

/-! ## Direct container strategy

From `ContainerDeploymentService.deploy`: docker build/tag, push (NodePort
host for in-cluster registries, querying the cluster first in this variant),
manifest application (existing manifests with image set and restart, or
generated minimal manifests), rollout status whose failure is swallowed, a pod
count query, and an ignored local image cleanup. Failures are rethrown
wrapped. -/

structure DirectEnv where
  now : Nat
  dockerBuildOk : Bool
  tagFullOk : Bool
  tagLatestOk : Bool
  nodePortQueryOk : Bool
  nodePortQueryOut : String
  tagNodePortOk : Bool
  tagNodePortLatestOk : Bool
  pushOk : Bool
  pushLatestOk : Bool
  manifestsFound : Bool
  manifestPath : String
  applyOk : Bool
  setImageOk : Bool
  restartOk : Bool
  rolloutStatusOk : Bool
  generateApplyOk : Bool
  podCountOutput : String
  rmiOk : Bool

def directPushStep (env : DirectEnv) (registry : RegistryConfig)
    (serviceName imageTag : String) : Dep Unit :=
  if strIncludes registry.endpoint inClusterSuffix then
    dbind (if env.nodePortQueryOk then dpure ()
      else dthrow DeployError.nodePortQueryFailed) fun _ =>
    let host := directPushHost registry.endpoint registry.nodePort env.nodePortQueryOut
    let nodePortImage := host ++ "/" ++ registry.repository ++ ":" ++ imageTag
    let nodePortLatest := host ++ "/" ++ registry.repository ++ ":latest"
    dbind (demit (Effect.dockerTag (serviceName ++ ":" ++ imageTag) nodePortImage)) fun _ =>
    if !env.tagNodePortOk then dthrow DeployError.dockerTagFailed else
    dbind (demit (Effect.dockerTag (serviceName ++ ":" ++ imageTag) nodePortLatest)) fun _ =>
    if !env.tagNodePortLatestOk then dthrow DeployError.dockerTagFailed else
    dbind (demit (Effect.dockerPush nodePortImage)) fun _ =>
    if !env.pushOk then dthrow DeployError.dockerPushFailed else
    dbind (demit (Effect.dockerPush nodePortLatest)) fun _ =>
    if !env.pushLatestOk then dthrow DeployError.dockerPushFailed else dpure ()
  else
    dbind (demit (Effect.dockerPush
        (registry.endpoint ++ "/" ++ registry.repository ++ ":" ++ imageTag))) fun _ =>
    if !env.pushOk then dthrow DeployError.dockerPushFailed else
    dbind (demit (Effect.dockerPush
        (registry.endpoint ++ "/" ++ registry.repository ++ ":latest"))) fun _ =>
    if !env.pushLatestOk then dthrow DeployError.dockerPushFailed else dpure ()

/-- Generate minimal deployment and service manifests in a temp directory and
apply both; a failure of either apply surfaces identically. -/
def directGenerateApply (env : DirectEnv) : Dep Unit :=
  dbind (demit (Effect.fsWrite "heimdizzy-tmp/deployment.yaml")) fun _ =>
  dbind (demit (Effect.fsWrite "heimdizzy-tmp/service.yaml")) fun _ =>
  dbind (demit (Effect.kubectlApply "heimdizzy-tmp/deployment.yaml")) fun _ =>
  dbind (demit (Effect.kubectlApply "heimdizzy-tmp/service.yaml")) fun _ =>
  if env.generateApplyOk then dpure () else dthrow DeployError.kubernetesFailed

def directManifestStep (env : DirectEnv) (serviceName : String)
    (kubernetes : KubernetesConfig) : Dep Unit :=
  if kubernetes.useExistingManifests then
    if env.manifestsFound then
      dbind (demit (Effect.kubectlApply env.manifestPath)) fun _ =>
      if !env.applyOk then dthrow DeployError.kubernetesFailed else
      dbind (demit (Effect.kubectlSetImage serviceName)) fun _ =>
      if !env.setImageOk then dthrow DeployError.kubernetesFailed else
      dbind (demit (Effect.kubectlRolloutRestart serviceName)) fun _ =>
      if !env.restartOk then dthrow DeployError.kubernetesFailed else dpure ()
    else
      directGenerateApply env
  else
    directGenerateApply env

def directDeploy (env : DirectEnv) (serviceName : String) (cfg : ContainerConfig)
    (gitHash : String) (dryRun : Bool) : Dep ContainerResult :=
  let imageTag := gitHash ++ "-" ++ toString env.now
  let fullImageName :=
    cfg.registry.endpoint ++ "/" ++ cfg.registry.repository ++ ":" ++ imageTag
  let latestImageName := cfg.registry.endpoint ++ "/" ++ cfg.registry.repository ++ ":latest"
  if dryRun then
    dpure { imageName := fullImageName, imageTag := imageTag,
            manifestsApplied := false, podCount := 0, nspace := cfg.kubernetes.nspace }
  else
    dcatch
      (dbind (demit (Effect.dockerBuild (serviceName ++ ":" ++ imageTag))) fun _ =>
       if !env.dockerBuildOk then dthrow DeployError.dockerBuildFailed else
       dbind (demit (Effect.dockerTag (serviceName ++ ":" ++ imageTag) fullImageName)) fun _ =>
       if !env.tagFullOk then dthrow DeployError.dockerTagFailed else
       dbind (demit (Effect.dockerTag (serviceName ++ ":" ++ imageTag) latestImageName)) fun _ =>
       if !env.tagLatestOk then dthrow DeployError.dockerTagFailed else
       dbind (directPushStep env cfg.registry serviceName imageTag) fun _ =>
       dbind (directManifestStep env serviceName cfg.kubernetes) fun _ =>
       dbind (demit (Effect.kubectlRolloutStatus serviceName)) fun _ =>
       dbind (demit (Effect.dockerRmi (serviceName ++ ":" ++ imageTag))) fun _ =>
       dpure { imageName := latestImageName, imageTag := imageTag,
               manifestsApplied := true,
               podCount := (jsParseInt env.podCountOutput).getD 0,
               nspace := cfg.kubernetes.nspace })
      fun e => dthrow (DeployError.containerFailed e)

/-! ## NPM strategy

From `NpmDeploymentService.deploy`: package.json is read first and a missing
name or version is fatal; `dryRun || npmConfig.dryRun` returns a placeholder
before any effect; otherwise the auth token is resolved (config value or
NPM_TOKEN), `.npmrc` written, `npm publish` run, `.npmrc` removed; on error
the `.npmrc` cleanup is attempted and the error rethrown wrapped. -/

structure NpmConfig where
  registry : String
  access : String
  tag : String
  dryRun : Bool
  otp : Option String
  token : Option String
deriving DecidableEq, Repr

structure NpmEnv where
  pkgName : Option String
  pkgVersion : Option String
  envToken : Option String
  publishOk : Bool

def npmDeploy (env : NpmEnv) (npmConfig : NpmConfig) (dryRun : Bool) : Dep NpmResult :=
  if !(jsPresent env.pkgName && jsPresent env.pkgVersion) then
    dthrow DeployError.packageJsonInvalid
  else
  let packageName := env.pkgName.getD ""
  let version := env.pkgVersion.getD ""
  if dryRun || npmConfig.dryRun then
    dpure { packageName := packageName, version := version,
            registry := npmConfig.registry, tag := npmConfig.tag, published := false }
  else
    dcatch
      (let token := if jsPresent npmConfig.token then npmConfig.token else env.envToken
       if !(jsPresent token) then dthrow DeployError.npmTokenMissing else
       dbind (demit Effect.npmWriteNpmrc) fun _ =>
       dbind (demit (Effect.npmPublishCmd npmConfig.registry)) fun _ =>
       if !env.publishOk then dthrow DeployError.npmPublishFailed else
       dbind (demit Effect.npmDeleteNpmrc) fun _ =>
       dpure { packageName := packageName, version := version,
               registry := npmConfig.registry, tag := npmConfig.tag, published := true })
      fun e => dbind (demit Effect.npmDeleteNpmrc) fun _ =>
        dthrow (DeployError.npmFailed e)

/-! ## Docker Hub strategy

From `DockerHubDeploymentService.deploy`: primary tag is the git hash when the
configured tag is `latest`; `latest` is appended to the additional tags
otherwise; dry run returns a placeholder before any effect; otherwise
credentials are resolved (config or DOCKER_USERNAME/DOCKER_PASSWORD), login,
buildx setup and bootstrap, one multi-platform build-and-push, and an ignored
builder cleanup; failures are rethrown wrapped. -/

structure DockerHubConfig where
  repository : String
  tag : String
  tags : Option (List String)
  username : Option String
  password : Option String
  dockerfile : String
  platform : List String
deriving DecidableEq, Repr

structure DockerHubEnv where
  envUsername : Option String
  envPassword : Option String
  loginOk : Bool
  buildxSetupOk : Bool
  buildxInspectOk : Bool
  buildxBuildOk : Bool

def dockerhubAdditionalTags (cfg : DockerHubConfig) : List String :=
  (cfg.tags.getD []) ++
    (if !(cfg.tags.getD []).contains "latest" && cfg.tag != "latest"
     then ["latest"] else [])

def dockerhubDeploy (env : DockerHubEnv) (cfg : DockerHubConfig) (gitHash : String)
    (dryRun : Bool) : Dep DockerHubResult :=
  let primaryTag := if cfg.tag == "latest" then gitHash else cfg.tag
  let additionalTags := dockerhubAdditionalTags cfg
  if dryRun then
    dpure { repository := cfg.repository, tag := primaryTag,
            additionalTags := additionalTags, pushed := false,
            imageName := cfg.repository ++ ":" ++ primaryTag }
  else
    dcatch
      (let username := if jsPresent cfg.username then cfg.username else env.envUsername
       let password := if jsPresent cfg.password then cfg.password else env.envPassword
       if !(jsPresent username && jsPresent password) then
         dthrow DeployError.dockerhubCredsMissing
       else
       dbind (demit (Effect.dockerLogin "docker.io")) fun _ =>
       if !env.loginOk then dthrow DeployError.dockerLoginFailed else
       dbind (demit Effect.buildxSetup) fun _ =>
       if !env.buildxSetupOk then dthrow DeployError.buildxFailed else
       if !env.buildxInspectOk then dthrow DeployError.buildxFailed else
       dbind (demit (Effect.buildxBuildPush cfg.repository)) fun _ =>
       if !env.buildxBuildOk then dthrow DeployError.buildxFailed else
       dbind (demit Effect.buildxRemove) fun _ =>
       dpure { repository := cfg.repository, tag := primaryTag,
               additionalTags := additionalTags, pushed := true,
               imageName := cfg.repository ++ ":" ++ primaryTag })
      fun e => dthrow (DeployError.dockerhubFailed e)

/-! ## Lambda pod-restart path and the dispatch

From `DeploymentService.deployToKubernetes` and `DeploymentService.deploy`
(second implementation in deployment.ts): the dispatch recognises
web, container, npm, dockerhub, and lambda-zip-in-staging; anything else is a
soft skip. The pod-restart path hard-codes namespace `novaskyn` and selector
`app={name}-lambda-rie`; an unavailable kubectl is also a soft skip. -/

structure K8sRestartEnv where
  kubectlAvailable : Bool
  podCountOutput : String
  deleteOk : Bool
  podStatusOutput : String

def deployToKubernetes (env : K8sRestartEnv) (serviceName : String) (dryRun : Bool) :
    Dep DeploymentResult :=
  let selector := "app=" ++ serviceName ++ "-lambda-rie"
  if dryRun then
    dpure { emptyDeploymentResult with skipped := some true }
  else if !env.kubectlAvailable then
    dpure { emptyDeploymentResult with skipped := some true }
  else if env.podCountOutput == "0" then
    dpure { emptyDeploymentResult with podCount := some 0 }
  else
    dbind (demit (Effect.kubectlDeletePods selector)) fun _ =>
    if !env.deleteOk then dthrow DeployError.kubernetesFailed else
    dpure { emptyDeploymentResult with
            podCount := jsParseInt env.podCountOutput,
            podStatus := some env.podStatusOutput }

structure DeployTargetInput where
  deploymentType : String
  environment : String
  hooks : Option HooksCfg
  web : Option WebConfig
  container : Option ContainerConfig
  npm : Option NpmConfig
  dockerhub : Option DockerHubConfig
  buildDockerfile : Option String
  deployGitOpsBasePath : Option String
  projectRoot : Option String
  fullGitOpsBasePath : Option String

structure DispatchEnv where
  cmdOk : String → Bool
  webEnv : WebEnv
  gitopsEnv : GitOpsEnv
  directEnv : DirectEnv
  npmEnv : NpmEnv
  dockerhubEnv : DockerHubEnv
  k8sEnv : K8sRestartEnv

def dsDeployContainer (denv : DispatchEnv) (serviceName : String)
    (inp : DeployTargetInput) (gitHash : String) (dryRun : Bool) : Dep DeploymentResult :=
  match inp.container with
  | none => dthrow DeployError.containerConfigMissing
  | some cfg =>
    dbind (runOptHooks denv.cmdOk (inp.hooks.bind HooksCfg.pre_build)) fun _ =>
    if jsNotFalse cfg.gitops then
      dbind (gitopsDeploy denv.cmdOk denv.gitopsEnv serviceName cfg gitHash dryRun
        inp.hooks inp.buildDockerfile inp.projectRoot inp.deployGitOpsBasePath
        inp.fullGitOpsBasePath) fun g =>
      dpure { emptyDeploymentResult with
              podCount := some 0,
              container := some { imageName := g.imageName, imageTag := g.imageTag,
                                  manifestsApplied := g.manifestUpdated, podCount := 0,
                                  nspace := cfg.kubernetes.nspace } }
    else
      dbind (directDeploy denv.directEnv serviceName cfg gitHash dryRun) fun c =>
      dpure { emptyDeploymentResult with podCount := some c.podCount, container := some c }

def dsDeployNpm (denv : DispatchEnv) (inp : DeployTargetInput) (dryRun : Bool) :
    Dep DeploymentResult :=
  match inp.npm with
  | none => dthrow DeployError.npmConfigMissing
  | some cfg =>
    if !(jsPresent inp.projectRoot) then dthrow DeployError.projectRootMissing else
    dbind (runOptHooks denv.cmdOk (inp.hooks.bind HooksCfg.pre_deploy)) fun _ =>
    dbind (npmDeploy denv.npmEnv cfg dryRun) fun n =>
    dbind (runOptHooks denv.cmdOk (inp.hooks.bind HooksCfg.post_deploy)) fun _ =>
    dpure { emptyDeploymentResult with npm := some n }

def dsDeployDockerHub (denv : DispatchEnv) (inp : DeployTargetInput) (gitHash : String)
    (dryRun : Bool) : Dep DeploymentResult :=
  match inp.dockerhub with
  | none => dthrow DeployError.dockerhubConfigMissing
  | some cfg =>
    if !(jsPresent inp.projectRoot) then dthrow DeployError.projectRootMissing else
    dbind (runOptHooks denv.cmdOk (inp.hooks.bind HooksCfg.pre_build)) fun _ =>
    dbind (runOptHooks denv.cmdOk (inp.hooks.bind HooksCfg.post_build)) fun _ =>
    dbind (runOptHooks denv.cmdOk (inp.hooks.bind HooksCfg.pre_deploy)) fun _ =>
    dbind (dockerhubDeploy denv.dockerhubEnv cfg gitHash dryRun) fun d =>
    dbind (runOptHooks denv.cmdOk (inp.hooks.bind HooksCfg.post_deploy)) fun _ =>
    dpure { emptyDeploymentResult with dockerhub := some d }

/-- Multi-type dispatch `DeploymentService.deploy` (the implementation that
recognises container/npm/dockerhub/lambda-zip); `gitHash` is defaulted to
`latest` at the container and dockerhub call sites as in the source. -/
def dsDeploy (denv : DispatchEnv) (serviceName : String) (inp : DeployTargetInput)
    (dryRun : Bool) (gitHash : String) : Dep DeploymentResult :=
  if inp.deploymentType == "web" then
    dsDeployWeb denv.cmdOk denv.webEnv inp.hooks inp.web dryRun
  else if inp.deploymentType == "container" then
    dsDeployContainer denv serviceName inp (jsOrStrS gitHash "latest") dryRun
  else if inp.deploymentType == "npm" then
    dsDeployNpm denv inp dryRun
  else if inp.deploymentType == "dockerhub" then
    dsDeployDockerHub denv inp (jsOrStrS gitHash "latest") dryRun
  else if inp.deploymentType == "lambda-zip" && inp.environment == "staging" then
    deployToKubernetes denv.k8sEnv serviceName dryRun
  else
    dpure { emptyDeploymentResult with skipped := some true }

/-- Supported deployment-type tags of this dispatch. -/
def supportedTypes : List String := ["web", "container", "npm", "dockerhub", "lambda-zip"]

/-- Strategy configuration needed for the selected type to pass validation. -/
def typeConfigured (inp : DeployTargetInput) (denv : DispatchEnv) : Prop :=
  (inp.deploymentType = "web" → inp.web.isSome) ∧
  (inp.deploymentType = "container" → inp.container.isSome) ∧
  (inp.deploymentType = "npm" → inp.npm.isSome ∧ jsPresent inp.projectRoot = true ∧
    jsPresent denv.npmEnv.pkgName = true ∧ jsPresent denv.npmEnv.pkgVersion = true) ∧
  (inp.deploymentType = "dockerhub" → inp.dockerhub.isSome ∧
    jsPresent inp.projectRoot = true)

/-- Result fields under dry run must be zero or placeholder: no positive pod
count, the mock file count for web, container manifests not applied, npm not
published, dockerhub not pushed. -/
def dryRunPlaceholderResult (r : DeploymentResult) : Bool :=
  (r.podCount.getD 0 == 0) &&
  (r.deployedFiles.getD 3 == 3) &&
  (match r.container with
   | some c => (!c.manifestsApplied) && c.podCount == 0
   | none => true) &&
  (match r.npm with | some n => !n.published | none => true) &&
  (match r.dockerhub with | some d => !d.pushed | none => true)

/-- Expected dry-run invalidation id of the web strategy. -/
def webDryRunInvalidationId (cfg : WebConfig) : Option String :=
  match cfg.cloudfront with
  | some cf => if jsPresent cf.distributionId then some "dry-run-invalidation-id" else none
  | none => none

/-! ## Demo environments for concrete evaluations -/

def demoWebEnv : WebEnv :=
  { buildOk := true, buildDuration := 1, buildDirExists := true, files := [],
    putOk := fun _ => true, invalidationOk := true, invalidationId := "inv",
    deployDuration := 2 }

def demoGitOpsEnv : GitOpsEnv :=
  { now := 1700000000000, cwd := "/work", dockerfileExists := true,
    dockerBuildOk := true, tagFullOk := true, tagLatestOk := true,
    nodePortQueryOk := true, nodePortQueryOut := "30500", tagNodePortOk := true,
    tagNodePortLatestOk := true, pushOk := true, pushLatestOk := true,
    fileExists := fun _ => false, readKustomization := fun _ =>
      { apiVersion := "kustomize.config.k8s.io/v1beta1", kind := "Kustomization",
        nspace := "default", resources := [], images := none },
    gitOutcome := GitOutcome.ok, rmiOk := true }

def demoDirectEnv : DirectEnv :=
  { now := 1700000000000, dockerBuildOk := true, tagFullOk := true,
    tagLatestOk := true, nodePortQueryOk := true, nodePortQueryOut := "30500",
    tagNodePortOk := true, tagNodePortLatestOk := true, pushOk := true,
    pushLatestOk := true, manifestsFound := false, manifestPath := "",
    applyOk := true, setImageOk := true, restartOk := true,
    rolloutStatusOk := true, generateApplyOk := true, podCountOutput := "2",
    rmiOk := true }

def demoNpmEnv : NpmEnv :=
  { pkgName := some "acme-lib", pkgVersion := some "1.2.3",
    envToken := some "token", publishOk := true }

def demoDockerHubEnv : DockerHubEnv :=
  { envUsername := some "acme", envPassword := some "secret", loginOk := true,
    buildxSetupOk := true, buildxInspectOk := true, buildxBuildOk := true }

def demoK8sEnv : K8sRestartEnv :=
  { kubectlAvailable := true, podCountOutput := "2", deleteOk := true,
    podStatusOutput := "Running" }

def demoDispatchEnv : DispatchEnv :=
  { cmdOk := fun _ => true, webEnv := demoWebEnv, gitopsEnv := demoGitOpsEnv,
    directEnv := demoDirectEnv, npmEnv := demoNpmEnv,
    dockerhubEnv := demoDockerHubEnv, k8sEnv := demoK8sEnv }

def lambdaZipInput (environment : String) : DeployTargetInput :=
  { deploymentType := "lambda-zip", environment := environment, hooks := none,
    web := none, container := none, npm := none, dockerhub := none,
    buildDockerfile := none, deployGitOpsBasePath := none, projectRoot := none,
    fullGitOpsBasePath := none }

/-- Concrete npm target with one pre-deploy hook, for evaluations. -/
def npmDemoInput : DeployTargetInput :=
  { deploymentType := "npm", environment := "staging",
    hooks := some
      { pre_build := none, post_build := none,
        pre_deploy := some
          [{ name := "lint", description := none, command := "npm run lint" }],
        post_deploy := none },
    web := none, container := none,
    npm := some
      { registry := "https://registry.npmjs.org/", access := "public",
        tag := "latest", dryRun := false, otp := none, token := none },
    dockerhub := none, buildDockerfile := none, deployGitOpsBasePath := none,
    projectRoot := some "/repo", fullGitOpsBasePath := none }

/-! ## Lemmas about traces and combinators -/

@[simp] theorem dbind_dpure {α β : Type} (x : α) (f : α → Dep β) :
    dbind (dpure x) f = f x := by
  simp [dbind, dpure]

@[simp] theorem dbind_dthrow {α β : Type} (e : DeployError) (f : α → Dep β) :
    dbind (dthrow e) f = dthrow e := rfl

@[simp] theorem dbind_demit {β : Type} (eff : Effect) (f : Unit → Dep β) :
    dbind (demit eff) f = (eff :: (f ()).1, (f ()).2) := by
  simp [dbind, demit]

@[simp] theorem dcatch_dpure {α : Type} (x : α) (h : DeployError → Dep α) :
    dcatch (dpure x) h = dpure x := rfl

@[simp] theorem dcatch_dthrow {α : Type} (e : DeployError) (h : DeployError → Dep α) :
    dcatch (dthrow e) h = h e := by
  simp [dcatch, dthrow]

theorem dbind_error {α β : Type} (a : Dep α) (f : α → Dep β) (e : DeployError)
    (h : (dbind a f).2 = Except.error e) :
    a.2 = Except.error e ∨ ∃ x, a.2 = Except.ok x ∧ (f x).2 = Except.error e := by
  rcases a with ⟨tr, r⟩
  cases r with
  | error e₀ =>
    left
    simpa [dbind] using h
  | ok x =>
    right
    exact ⟨x, rfl, by simpa [dbind] using h⟩

theorem dbind_snd_ok {α β : Type} {a : Dep α} {tr : List Effect} {x : α}
    (f : α → Dep β) (h : a = (tr, Except.ok x)) : (dbind a f).2 = (f x).2 := by
  subst h
  simp [dbind]

/-! ## Idempotence of the kustomization image patch (C1) -/

theorem imageEntryMatches_name_only (e r : String) (img : ImageEntry) (t : String) :
    imageEntryMatches e r { img with newTag := t } = imageEntryMatches e r img := rfl

theorem patchImages_idem (e r t : String) (l : List ImageEntry) :
    patchImages e r t (patchImages e r t l) = patchImages e r t l := by
  induction l with
  | nil => simp [patchImages, imageEntryMatches]
  | cons img rest ih =>
    by_cases h : imageEntryMatches e r img
    · simp [patchImages, h, imageEntryMatches_name_only]
    · simp [patchImages, h, ih]

/-- C1. The GitOps manifest patch is a pure function of the existing
descriptor, the image name components, and the new tag (it is a Lean function
of exactly those arguments), and applying it twice with the same image name
and tag yields a descriptor identical to applying it once. -/
theorem gitops_manifest_patch_idempotent (endpoint repository imageTag : String)
    (k : Kustomization) :
    patchKustomization endpoint repository imageTag
      (patchKustomization endpoint repository imageTag k) =
    patchKustomization endpoint repository imageTag k := by
  simp [patchKustomization, patchImages_idem]

/-! ## Hook ordering (C3) -/

/-- When every command succeeds, the hook runner executes each hook in order
and returns successfully. -/
theorem executeHooks_all_ok (cmdOk : String → Bool) (l : List Hook)
    (h : ∀ x ∈ l, cmdOk x.command = true) :
    executeHooks cmdOk l =
      (l.map fun x => Effect.hookExec x.name x.command, Except.ok ()) := by
  induction l with
  | nil => simp [executeHooks, dpure]
  | cons a rest ih =>
    have ha : cmdOk a.command = true := h a (List.mem_cons_self a rest)
    have hrest : ∀ x ∈ rest, cmdOk x.command = true :=
      fun x hx => h x (List.mem_cons_of_mem a hx)
    simp [executeHooks, ha, ih hrest]

/-- The first failing hook stops the run: hooks before it execute in order,
the failing hook's command is the last subprocess spawned, everything after it
never executes, and the named error is raised. -/
theorem executeHooks_first_failure (cmdOk : String → Bool) (pre : List Hook) (b : Hook)
    (post : List Hook) (hpre : ∀ x ∈ pre, cmdOk x.command = true)
    (hb : cmdOk b.command = false) :
    executeHooks cmdOk (pre ++ b :: post) =
      ((pre ++ [b]).map fun x => Effect.hookExec x.name x.command,
        Except.error (DeployError.hookFailed b.name)) := by
  induction pre with
  | nil => simp [executeHooks, hb, dthrow]
  | cons a rest ih =>
    have ha : cmdOk a.command = true := hpre a (List.mem_cons_self a rest)
    have hrest : ∀ x ∈ rest, cmdOk x.command = true :=
      fun x hx => hpre x (List.mem_cons_of_mem a hx)
    simp [executeHooks, ha, ih hrest]

/-- C3. Hooks execute strictly in list order; when a hook fails, no later hook
in the list is ever executed and the hook error is raised immediately; the
error propagates through the pipeline phase sequencing, so that a failing
pre-deploy hook prevents the web deployment phase (and its post-deploy hooks)
from contributing any effect or result. -/
theorem hooks_order_and_abort_on_failure (cmdOk : String → Bool)
    (pre : List Hook) (b : Hook) (post : List Hook)
    (hpre : ∀ x ∈ pre, cmdOk x.command = true) (hb : cmdOk b.command = false) :
    (executeHooks cmdOk (pre ++ b :: post) =
      ((pre ++ [b]).map fun x => Effect.hookExec x.name x.command,
        Except.error (DeployError.hookFailed b.name))) ∧
    ∀ (env : WebEnv) (hooks : HooksCfg) (web : WebConfig) (dryRun : Bool),
      hooks.pre_deploy = some (pre ++ b :: post) →
      dsDeployWeb cmdOk env (some hooks) (some web) dryRun =
        ((pre ++ [b]).map fun x => Effect.hookExec x.name x.command,
          Except.error (DeployError.hookFailed b.name)) := by
  have hfail := executeHooks_first_failure cmdOk pre b post hpre hb
  refine ⟨hfail, ?_⟩
  intro env hooks web dryRun hpd
  simp [dsDeployWeb, runOptHooks, hpd, hfail, dbind]

/-- Witness: for hooks `[A, B, C]` where `B`'s command fails, exactly `A` and
`B` are spawned, `C` never runs, and the pipeline aborts with `B`'s error. -/
theorem hooks_order_and_abort_on_failure_witness :
    executeHooks (fun c => c != "exit 1")
        [⟨"A", none, "echo a"⟩, ⟨"B", none, "exit 1"⟩, ⟨"C", none, "echo c"⟩] =
      ([Effect.hookExec "A" "echo a", Effect.hookExec "B" "exit 1"],
        Except.error (DeployError.hookFailed "B")) := by
  have h := (hooks_order_and_abort_on_failure (fun c => c != "exit 1")
    [⟨"A", none, "echo a"⟩] ⟨"B", none, "exit 1"⟩ [⟨"C", none, "echo c"⟩]
    (by decide) (by decide)).1
  simpa using h

/-! ## Web strategy evaluation lemmas -/

theorem uploadFiles_all_ok (putOk : Nat → Bool) (webPath : Option String)
    (files : List String) (n : Nat) (h : ∀ i, putOk i = true) :
    uploadFiles putOk webPath false files n =
      (files.map fun f => Effect.s3Put (s3KeyFor webPath f),
        Except.ok (n + files.length)) := by
  induction files generalizing n with
  | nil => simp [uploadFiles, dpure]
  | cons f rest ih =>
    have hn : n + 1 + rest.length = n + (rest.length + 1) := by omega
    simp [uploadFiles, h n, ih (n + 1), hn]

theorem uploadFiles_dryRun (putOk : Nat → Bool) (webPath : Option String)
    (files : List String) (n : Nat) :
    uploadFiles putOk webPath true files n = ([], Except.ok (n + files.length)) := by
  induction files generalizing n with
  | nil => simp [uploadFiles, dpure]
  | cons f rest ih =>
    have hn : n + 1 + rest.length = n + (rest.length + 1) := by omega
    simp [uploadFiles, ih (n + 1), hn]

theorem webBuildStep_isOk (env : WebEnv) (cfg : WebConfig) (h : env.buildOk = true) :
    ∃ tr v, webBuildStep env cfg false = (tr, Except.ok v) := by
  unfold webBuildStep
  by_cases hbc : jsPresent cfg.buildCommand
  · exact ⟨[Effect.shellBuild (cfg.buildCommand.getD "")], some env.buildDuration,
      by simp [hbc, h, dbind, demit, dpure]⟩
  · exact ⟨[], none, by simp [hbc, dpure]⟩

theorem webInvalidationStep_isOk (env : WebEnv) (cfg : WebConfig) (d : Bool) :
    ∃ tr v, webInvalidationStep env cfg d = (tr, Except.ok v) := by
  unfold webInvalidationStep
  rcases cfg.cloudfront with _ | cf
  · exact ⟨[], none, rfl⟩
  · cases h1 : jsPresent cf.distributionId with
    | false => exact ⟨[], none, by simp [h1, dpure]⟩
    | true =>
      cases d with
      | true => exact ⟨[], some "dry-run-invalidation-id", by simp [h1, dpure]⟩
      | false =>
        cases h2 : env.invalidationOk with
        | true =>
          exact ⟨[Effect.cdnInvalidate (cf.distributionId.getD "")],
            some env.invalidationId, by simp [h1, h2, dbind, demit, dpure]⟩
        | false =>
          exact ⟨[Effect.cdnInvalidate (cf.distributionId.getD "")], none,
            by simp [h1, h2, dbind, demit, dpure]⟩

theorem countS3Puts_map (l : List String) :
    countS3Puts (l.map fun f => Effect.s3Put f) = l.length := by
  induction l with
  | nil => rfl
  | cons a rest ih =>
    simp [countS3Puts, Effect.isS3Put, ih]
    omega

/-! ## Default-on verification of the web strategy (C9) -/

/-- C9. In the web strategy with dryRun unset, the post-deploy file-count
verification runs even when no verification configuration is present: the
enabled flags default to on and the minimum file count defaults to 5, so a run
that deploys fewer than 5 files fails with the verification error after the
uploads. -/
theorem web_verification_defaults_on (env : WebEnv) (cfg : WebConfig)
    (hv : cfg.verification = none) (hbuild : env.buildOk = true)
    (hdir : env.buildDirExists = true) (hput : ∀ i, env.putOk i = true)
    (hlen : env.files.length < 5) :
    (webDeploy env cfg false).2 =
      Except.error (DeployError.verificationFailed env.files.length 5) := by
  obtain ⟨tr1, v1, h1⟩ := webBuildStep_isOk env cfg hbuild
  have h2 : webScanStep env cfg false = ([], Except.ok env.files) := by
    simp [webScanStep, hdir, dpure]
  have h3 := uploadFiles_all_ok env.putOk cfg.webPath env.files 0 hput
  simp only [Nat.zero_add] at h3
  obtain ⟨tr4, v4, h4⟩ := webInvalidationStep_isOk env cfg false
  have h5 : webVerificationStep cfg false env.files.length =
      ([], Except.error (DeployError.verificationFailed env.files.length 5)) := by
    simp [webVerificationStep, hv, jsNotFalse, jsOrNat, jsPresentNat, hlen, dthrow]
  simp [webDeploy, h1, h2, h3, h4, h5, dbind, dpure]

/-- Witness for C9: three files, no verification block at all, non-dry run. -/
theorem web_verification_defaults_on_witness :
    (webDeploy
        { buildOk := true, buildDuration := 4, buildDirExists := true,
          files := ["index.html", "app.js", "style.css"], putOk := fun _ => true,
          invalidationOk := true, invalidationId := "inv", deployDuration := 9 }
        { buildCommand := none, buildDir := "dist", indexFile := "index.html",
          webPath := none, cloudfront := none,
          cacheControlHtml := "no-cache", cacheControlAssets := "public",
          verification := none }
        false).2 =
      Except.error (DeployError.verificationFailed 3 5) := by
  have h := web_verification_defaults_on
    { buildOk := true, buildDuration := 4, buildDirExists := true,
      files := ["index.html", "app.js", "style.css"], putOk := fun _ => true,
      invalidationOk := true, invalidationId := "inv", deployDuration := 9 }
    { buildCommand := none, buildDir := "dist", indexFile := "index.html",
      webPath := none, cloudfront := none,
      cacheControlHtml := "no-cache", cacheControlAssets := "public",
      verification := none }
    rfl rfl rfl (fun _ => rfl) (by decide)
  simpa using h

/-! ## Static-site minimum-file scenario (C7) -/

theorem webDeploy_c7_eval (env : WebEnv) (hbuild : env.buildOk = true)
    (hdir : env.buildDirExists = true) (hput : ∀ i, env.putOk i = true) :
    webDeploy env c7Config false =
      (Effect.shellBuild "echo build" :: env.files.map (fun f => Effect.s3Put f),
        if env.files.length < 5 then
          Except.error (DeployError.verificationFailed env.files.length 5)
        else
          Except.ok { deployedFiles := env.files.length, invalidationId := none,
                      buildTime := some env.buildDuration,
                      deployTime := env.deployDuration }) := by
  have h1 : webBuildStep env c7Config false =
      ([Effect.shellBuild "echo build"], Except.ok (some env.buildDuration)) := by
    simp [webBuildStep, c7Config, jsPresent, hbuild, dbind, demit, dpure]
  have h2 : webScanStep env c7Config false = ([], Except.ok env.files) := by
    simp [webScanStep, hdir, dpure]
  have h3 := uploadFiles_all_ok env.putOk c7Config.webPath env.files 0 hput
  simp only [Nat.zero_add] at h3
  have hkey : ∀ f, s3KeyFor c7Config.webPath f = f := by
    intro f
    simp [s3KeyFor, c7Config, jsPresent]
  simp only [hkey] at h3
  have h4 : webInvalidationStep env c7Config false = ([], Except.ok none) := by
    simp [webInvalidationStep, c7Config, dpure]
  have h5 : webVerificationStep c7Config false env.files.length =
      (if env.files.length < 5 then
        ([], Except.error (DeployError.verificationFailed env.files.length 5))
      else ([], Except.ok ())) := by
    by_cases hc : env.files.length < 5 <;>
      simp [webVerificationStep, c7Config, jsNotFalse, jsOrNat, jsPresentNat, hc,
        dthrow, dpure]
  by_cases hc : env.files.length < 5 <;>
    simp [webDeploy, h1, h2, h3, h4, h5, hc, dbind, dpure]

/-- C7. Web deployment with dryRun unset and minioCheck.minFiles = 5: with 6
deployed files the result reports deployedFiles = 6 and no verification error;
with only 3 files present the run fails with the verification error even
though all 3 files were already written (the writes remain in the trace). -/
theorem web_minfiles_scenario (env : WebEnv) (hbuild : env.buildOk = true)
    (hdir : env.buildDirExists = true) (hput : ∀ i, env.putOk i = true) :
    (env.files.length = 6 →
      webDeploy env c7Config false =
        (Effect.shellBuild "echo build" :: env.files.map (fun f => Effect.s3Put f),
          Except.ok { deployedFiles := 6, invalidationId := none,
                      buildTime := some env.buildDuration,
                      deployTime := env.deployDuration })) ∧
    (env.files.length = 3 →
      (webDeploy env c7Config false).2 =
          Except.error (DeployError.verificationFailed 3 5) ∧
        countS3Puts (webDeploy env c7Config false).1 = 3) := by
  have heval := webDeploy_c7_eval env hbuild hdir hput
  constructor
  · intro h6
    rw [heval, h6]
    norm_num
  · intro h3
    rw [heval, h3]
    refine ⟨by norm_num, ?_⟩
    have hcount := countS3Puts_map env.files
    simp [countS3Puts, Effect.isS3Put, hcount, h3]

/-- Witness for C7: both halves of the scenario at concrete file lists. -/
theorem web_minfiles_scenario_witness :
    (webDeploy
        { buildOk := true, buildDuration := 1, buildDirExists := true,
          files := ["a", "b", "c", "d", "e", "f"], putOk := fun _ => true,
          invalidationOk := true, invalidationId := "i", deployDuration := 2 }
        c7Config false).2 =
      Except.ok { deployedFiles := 6, invalidationId := none,
                  buildTime := some 1, deployTime := 2 } ∧
    (webDeploy
        { buildOk := true, buildDuration := 1, buildDirExists := true,
          files := ["a", "b", "c"], putOk := fun _ => true,
          invalidationOk := true, invalidationId := "i", deployDuration := 2 }
        c7Config false).2 =
      Except.error (DeployError.verificationFailed 3 5) := by
  constructor
  · have h := (web_minfiles_scenario
      { buildOk := true, buildDuration := 1, buildDirExists := true,
        files := ["a", "b", "c", "d", "e", "f"], putOk := fun _ => true,
        invalidationOk := true, invalidationId := "i", deployDuration := 2 }
      rfl rfl (fun _ => rfl)).1 rfl
    rw [h]
  · exact ((web_minfiles_scenario
      { buildOk := true, buildDuration := 1, buildDirExists := true,
        files := ["a", "b", "c"], putOk := fun _ => true,
        invalidationOk := true, invalidationId := "i", deployDuration := 2 }
      rfl rfl (fun _ => rfl)).2 rfl).1

/-! ## Rollback semantics of the service strategy (C2) -/

theorem svcBodyInv_dpure {α : Type} (x : α) : SvcBodyInv (dpure x) := by
  constructor
  · intro e he
    simp [dpure] at he
  · intro err herr
    simp [dpure] at herr

theorem svcBodyInv_dthrow {α : Type} (err0 : DeployError)
    (h : err0 ≠ DeployError.rollbackFailed) : SvcBodyInv (dthrow (α := α) err0) := by
  constructor
  · intro e he
    simp [dthrow] at he
  · intro err herr
    simp [dthrow] at herr
    simpa [← herr] using h

theorem svcBodyInv_demit (eff : Effect) (h : Effect.isUndo eff = false) :
    SvcBodyInv (demit eff) := by
  constructor
  · intro e he
    simp [demit] at he
    simpa [he] using h
  · intro err herr
    simp [demit] at herr

theorem svcBodyInv_dbind {α β : Type} {a : Dep α} {f : α → Dep β}
    (ha : SvcBodyInv a) (hf : ∀ x, SvcBodyInv (f x)) : SvcBodyInv (dbind a f) := by
  rcases a with ⟨tr, r⟩
  cases r with
  | error e0 =>
    refine ⟨fun e he => ha.1 e (by simpa [dbind] using he), fun err herr => ?_⟩
    have h0 : (Except.error e0 : Except DeployError β) = Except.error err := by
      simpa [dbind] using herr
    cases h0
    exact ha.2 e0 rfl
  | ok x =>
    constructor
    · intro e he
      rcases List.mem_append.mp (by simpa [dbind] using he) with h | h
      · exact ha.1 e h
      · exact (hf x).1 e h
    · intro err herr
      exact (hf x).2 err (by simpa [dbind] using herr)

theorem svcBodyInv_dfinally {α : Type} {a : Dep α} {fin : Dep Unit}
    (ha : SvcBodyInv a) (hfin : ∀ e ∈ fin.1, Effect.isUndo e = false) :
    SvcBodyInv (dfinally a fin) := by
  constructor
  · intro e he
    rcases List.mem_append.mp (by simpa [dfinally] using he) with h | h
    · exact ha.1 e h
    · exact hfin e h
  · intro err herr
    exact ha.2 err (by simpa [dfinally] using herr)

theorem verifyHealthLoop_trace_probes (healthy : Nat → Bool) (i fuel : Nat) :
    ∀ e ∈ (verifyHealthLoop healthy i fuel).1, ∃ j, e = Effect.healthProbe j := by
  induction fuel generalizing i with
  | zero =>
    intro e he
    simp [verifyHealthLoop] at he
  | succ n ih =>
    intro e he
    by_cases h : healthy i
    · simp [verifyHealthLoop, h] at he
      exact ⟨i, he⟩
    · simp [verifyHealthLoop, h] at he
      rcases he with he | he
      · exact ⟨i, he⟩
      · exact ih (i + 1) e he

theorem svcHealthStep_inv (healthy : Nat → Bool) : SvcBodyInv (svcHealthStep healthy) := by
  constructor
  · intro e he
    simp only [svcHealthStep] at he
    obtain ⟨j, hj⟩ := verifyHealthLoop_trace_probes healthy 0 maxHealthRetries e he
    simp [hj, Effect.isUndo]
  · intro err herr
    simp [svcHealthStep] at herr

theorem runMigrationJob_inv (env : SvcEnv) (jobName : String) :
    SvcBodyInv (runMigrationJob env jobName) := by
  unfold runMigrationJob
  refine svcBodyInv_dbind (svcBodyInv_demit _ rfl) fun _ => ?_
  refine svcBodyInv_dfinally ?_ ?_
  · refine svcBodyInv_dbind (svcBodyInv_demit _ rfl) fun _ => ?_
    split
    · exact svcBodyInv_dthrow _ (by decide)
    refine svcBodyInv_dbind (svcBodyInv_demit _ rfl) fun _ => ?_
    split
    · exact svcBodyInv_dthrow _ (by decide)
    split
    · exact svcBodyInv_dbind (svcBodyInv_demit _ rfl) fun _ => svcBodyInv_dpure _
    · refine svcBodyInv_dbind (svcBodyInv_demit _ rfl) fun _ => ?_
      split
      · exact svcBodyInv_dpure _
      · exact svcBodyInv_dthrow _ (by decide)
  · intro e he
    simp [demit] at he
    simp [he, Effect.isUndo]

theorem svcDeployBody_inv (env : SvcEnv) (serviceName nspace : String)
    (registry : SvcRegistry) (imageTag gitSha : String) :
    SvcBodyInv (svcDeployBody env serviceName nspace registry imageTag gitSha) := by
  unfold svcDeployBody
  refine svcBodyInv_dbind (svcBodyInv_demit _ rfl) fun _ => ?_
  split
  · exact svcBodyInv_dthrow _ (by decide)
  refine svcBodyInv_dbind (svcBodyInv_demit _ rfl) fun _ => ?_
  split
  · exact svcBodyInv_dthrow _ (by decide)
  refine svcBodyInv_dbind (svcBodyInv_demit _ rfl) fun _ => ?_
  split
  · exact svcBodyInv_dthrow _ (by decide)
  refine svcBodyInv_dbind ?_ fun _ => ?_
  · split
    · refine svcBodyInv_dbind (svcBodyInv_demit _ rfl) fun _ => ?_
      split
      · exact svcBodyInv_dpure _
      · exact svcBodyInv_dthrow _ (by decide)
    · exact svcBodyInv_dpure _
  refine svcBodyInv_dbind (svcBodyInv_demit _ rfl) fun _ => ?_
  split
  · exact svcBodyInv_dthrow _ (by decide)
  refine svcBodyInv_dbind (svcBodyInv_demit _ rfl) fun _ => ?_
  split
  · exact svcBodyInv_dthrow _ (by decide)
  refine svcBodyInv_dbind (runMigrationJob_inv env _) fun migrationResult => ?_
  split
  · exact svcBodyInv_dthrow _ (by decide)
  refine svcBodyInv_dbind (svcBodyInv_demit _ rfl) fun _ => ?_
  split
  · exact svcBodyInv_dthrow _ (by decide)
  refine svcBodyInv_dbind (svcBodyInv_demit _ rfl) fun _ => ?_
  split
  · exact svcBodyInv_dthrow _ (by decide)
  refine svcBodyInv_dbind (svcHealthStep_inv _) fun healthResult => ?_
  split
  · exact svcBodyInv_dthrow _ (by decide)
  · exact svcBodyInv_dpure _

theorem countRollbackCalls_append (l1 l2 : List Effect) :
    countRollbackCalls (l1 ++ l2) = countRollbackCalls l1 + countRollbackCalls l2 := by
  induction l1 with
  | nil => simp [countRollbackCalls]
  | cons a rest ih =>
    simp [countRollbackCalls, ih]
    omega

theorem countRollbackCalls_eq_zero (l : List Effect)
    (h : ∀ e ∈ l, Effect.isUndo e = false) : countRollbackCalls l = 0 := by
  induction l with
  | nil => rfl
  | cons a rest ih =>
    have ha := h a (List.mem_cons_self a rest)
    simp [countRollbackCalls, ha,
      ih (fun e he => h e (List.mem_cons_of_mem a he))]

/-- C2. In the service strategy, whenever the try block fails after the
pre-push steps (build, both tags, login) have succeeded — in particular when
health polling exhausts its budget — exactly one rollback (rollout undo) call
is issued, and the error propagated to the caller is the original failure,
never a rollback-related error, for every value of the rollback's own exit
status (which the code only logs). -/
theorem service_rollback_once_original_error (env : SvcEnv)
    (serviceName nspace : String) (registry : SvcRegistry) (gitHash : String)
    (e : DeployError)
    (hbuild : env.buildOk = true) (htag1 : env.tagFullOk = true)
    (htag2 : env.tagLatestOk = true) (hlogin : env.loginOk = true)
    (herr : (svcDeployBody env serviceName nspace registry (jsOrStrS gitHash "latest")
        (jsOrStrS gitHash "unknown")).2 = Except.error e) :
    (svcDeploy env serviceName nspace registry gitHash false).2 = Except.error e ∧
    countRollbackCalls (svcDeploy env serviceName nspace registry gitHash false).1 = 1 ∧
    e ≠ DeployError.rollbackFailed := by
  have hinv := svcDeployBody_inv env serviceName nspace registry
    (jsOrStrS gitHash "latest") (jsOrStrS gitHash "unknown")
  rcases hb : svcDeployBody env serviceName nspace registry (jsOrStrS gitHash "latest")
      (jsOrStrS gitHash "unknown") with ⟨tr, r⟩
  rw [hb] at herr hinv
  have hr : r = Except.error e := by simpa using herr
  subst hr
  have htr0 : countRollbackCalls tr = 0 := countRollbackCalls_eq_zero tr hinv.1
  refine ⟨?_, ?_, hinv.2 e rfl⟩
  · simp [svcDeploy, hb, dcatch, dbind, demit, dthrow]
  · simp [svcDeploy, hb, dcatch, dbind, demit, dthrow, countRollbackCalls_append,
      countRollbackCalls, Effect.isUndo, htr0]

/-- Witness for C2: every step succeeds up to health checking, which never
reports healthy; the rollback also fails; the surfaced error is the
health-check failure and exactly one rollback call appears in the trace. -/
theorem service_rollback_once_original_error_witness :
    (svcDeploy svcEnvHealthFail "api" "prod" svcRegistryDemo "abc1234" false).2 =
        Except.error DeployError.healthCheckFailed ∧
    countRollbackCalls
        (svcDeploy svcEnvHealthFail "api" "prod" svcRegistryDemo "abc1234" false).1 = 1 := by
  have h := service_rollback_once_original_error svcEnvHealthFail "api" "prod"
    svcRegistryDemo "abc1234" DeployError.healthCheckFailed rfl rfl rfl rfl rfl
  exact ⟨h.1, h.2.1⟩

/-! ## Bounded health polling (C8) -/

theorem verifyHealthLoop_length (healthy : Nat → Bool) (i fuel : Nat) :
    (verifyHealthLoop healthy i fuel).1.length ≤ fuel := by
  induction fuel generalizing i with
  | zero => simp [verifyHealthLoop]
  | succ n ih =>
    by_cases h : healthy i
    · simp [verifyHealthLoop, h]
    · simpa [verifyHealthLoop, h] using Nat.succ_le_succ (ih (i + 1))

theorem verifyHealthLoop_exhausted (healthy : Nat → Bool) (fuel : Nat) :
    ∀ i, (∀ j, i ≤ j → j < i + fuel → healthy j = false) →
      (verifyHealthLoop healthy i fuel).2 = false := by
  induction fuel with
  | zero =>
    intro i _
    simp [verifyHealthLoop]
  | succ n ih =>
    intro i h
    have hi : healthy i = false := h i le_rfl (by omega)
    simp [verifyHealthLoop, hi]
    exact ih (i + 1) (fun j hj1 hj2 => h j (by omega) (by omega))

theorem verifyHealth_exhausted (healthy : Nat → Bool)
    (h : ∀ i < maxHealthRetries, healthy i = false) :
    (verifyHealth healthy).2 = false := by
  exact verifyHealthLoop_exhausted healthy maxHealthRetries 0
    (fun j _ hj2 => h j (by simpa using hj2))

theorem runMigrationJob_snd_ok (env : SvcEnv) (jobName : String)
    (happly : env.applyOk = true) (hwait : env.waitOk = true)
    (hjob : env.jobStatus = "Complete") (hdel : env.deleteJobOk = true) :
    (runMigrationJob env jobName).2 = Except.ok true := by
  simp [runMigrationJob, dfinally, dbind, demit, dpure, happly, hwait, hjob, hdel]

/-- C8. Health polling in the service strategy is bounded: the retry budget is
30 attempts and the fixed inter-attempt delay 10000 ms (≈5 minutes total); the
loop performs at most 30 probes on every execution (it is a total function,
so it terminates); and when the budget is exhausted without a healthy answer,
the strategy's try block fails with the specific health-check error. -/
theorem health_polling_bounded (env : SvcEnv) (serviceName nspace : String)
    (registry : SvcRegistry) (imageTag gitSha : String)
    (hbuild : env.buildOk = true) (htag1 : env.tagFullOk = true)
    (htag2 : env.tagLatestOk = true) (hlogin : env.loginOk = true)
    (hpush1 : env.pushFullOk = true) (hpush2 : env.pushLatestOk = true)
    (happly : env.applyOk = true) (hwait : env.waitOk = true)
    (hjob : env.jobStatus = "Complete") (hdel : env.deleteJobOk = true)
    (hrestart : env.restartOk = true) (hstatus : env.statusOk = true) :
    maxHealthRetries = 30 ∧ healthRetryDelayMs = 10000 ∧
    (verifyHealth env.healthAttempt).1.length ≤ maxHealthRetries ∧
    ((∀ i < maxHealthRetries, env.healthAttempt i = false) →
      (svcDeployBody env serviceName nspace registry imageTag gitSha).2 =
        Except.error DeployError.healthCheckFailed) := by
  refine ⟨rfl, rfl, verifyHealthLoop_length env.healthAttempt 0 maxHealthRetries, ?_⟩
  intro hall
  have hfalse : (verifyHealth env.healthAttempt).2 = false :=
    verifyHealth_exhausted env.healthAttempt hall
  have hmig := runMigrationJob_snd_ok env
    (serviceName ++ "-migration-" ++ toString env.now) happly hwait hjob hdel
  rcases hm : runMigrationJob env (serviceName ++ "-migration-" ++ toString env.now)
    with ⟨mtr, mr⟩
  rw [hm] at hmig
  have hmr : mr = Except.ok true := by simpa using hmig
  subst hmr
  by_cases hcred : (jsPresent registry.username && jsPresent registry.password) = true
  · simp [svcDeployBody, dbind, demit, dpure, dthrow, hbuild, htag1, htag2, hlogin,
      hpush1, hpush2, hrestart, hstatus, hcred, hm, svcHealthStep, hfalse]
  · simp [svcDeployBody, dbind, demit, dpure, dthrow, hbuild, htag1, htag2, hlogin,
      hpush1, hpush2, hrestart, hstatus, hcred, hm, svcHealthStep, hfalse]

/-- Witness for C8: with every probe unhealthy, at most 30 probes happen and
the try block surfaces the health-check error. -/
theorem health_polling_bounded_witness :
    (verifyHealth svcEnvHealthFail.healthAttempt).1.length ≤ maxHealthRetries ∧
    (svcDeployBody svcEnvHealthFail "api" "prod" svcRegistryDemo
        "abc1234" "abc1234").2 = Except.error DeployError.healthCheckFailed := by
  have h := health_polling_bounded svcEnvHealthFail "api" "prod" svcRegistryDemo
    "abc1234" "abc1234" rfl rfl rfl rfl rfl rfl rfl rfl rfl rfl rfl rfl
  exact ⟨h.2.2.1, h.2.2.2 (fun i _ => rfl)⟩

/-! ## NodePort fallback (C6) -/

/-- C6. For a container push whose registry endpoint contains the in-cluster
service suffix, with no explicit nodePort configured and a cluster query that
fails to return a usable integer (NaN or 0 under JavaScript truthiness), the
push target host resolves to localhost:30500 in both container strategies. -/
theorem nodeport_fallback (endpoint : String) (explicitPort : Option Nat)
    (queryOut : String)
    (hin : strIncludes endpoint inClusterSuffix = true)
    (hport : jsPresentNat explicitPort = false)
    (hquery : jsParseInt queryOut = none ∨ jsParseInt queryOut = some 0) :
    gitOpsPushHost endpoint explicitPort queryOut = "localhost:30500" ∧
    directPushHost endpoint explicitPort queryOut = "localhost:30500" := by
  have hnone : jsPresentNat none = false := rfl
  have hzero : jsPresentNat (some 0) = false := rfl
  constructor
  · rcases hquery with h | h <;>
      simp [gitOpsPushHost, hin, resolveNodePortGitOps, jsOrNat, h, hport, hnone,
        hzero, defaultNodePort] <;> rfl
  · rcases hquery with h | h <;>
      simp [directPushHost, hin, resolveNodePortDirect, jsOrNat, h, hport, hnone,
        hzero, defaultNodePort] <;> rfl

/-- Witness for C6: an in-cluster endpoint, no configured port, empty query
output (parses to NaN). -/
theorem nodeport_fallback_witness :
    strIncludes "docker-registry.container-registry.svc.cluster.local:5000"
        inClusterSuffix = true ∧
    gitOpsPushHost "docker-registry.container-registry.svc.cluster.local:5000"
        none "" = "localhost:30500" ∧
    directPushHost "docker-registry.container-registry.svc.cluster.local:5000"
        none "" = "localhost:30500" := by
  have h := nodeport_fallback
    "docker-registry.container-registry.svc.cluster.local:5000" none ""
    (by decide) rfl (Or.inl rfl)
  exact ⟨by decide, h.1, h.2⟩

/-! ## Build phase gating (C5) -/

/-- Counterexample to C5: with no skip flag and a build section present, a
target of type service is not build-skipped by the code — the Builder runs —
although the claimed build-not-applicable set contains the service type; and
with no build section, a lambda-zip target is build-skipped although the
claimed condition says the Builder must be invoked. -/
theorem build_skip_set_counterexample :
    claimedBuildSkip false "service" = true ∧
    (cliBuildUploadPhase ⟨false, false, false⟩ true "service").builderInvoked = true ∧
    claimedBuildSkip false "lambda-zip" = false ∧
    (cliBuildUploadPhase ⟨false, false, false⟩ false
        "lambda-zip").builderInvoked = false := by
  decide

/-- C5 amended: the Builder is invoked exactly when skipBuild is unset, a
build configuration section is present, and the deployment type is outside
web, container, npm, dockerhub (the service type is not exempt); and for every
type outside that set, skipBuild=true fires the buildSkipped notification, the
Builder is never invoked, and the upload phase still proceeds when skipUpload
is unset. -/
theorem build_phase_gating (opts : CliOptions) (hasBuildConfig : Bool) (t : String) :
    ((cliBuildUploadPhase opts hasBuildConfig t).builderInvoked =
      (!opts.skipBuild && hasBuildConfig && !(skipBuildTypes.contains t))) ∧
    (opts.skipBuild = true → (!(skipBuildTypes.contains t)) = true →
      (cliBuildUploadPhase opts hasBuildConfig t).buildSkippedNotified = true ∧
      (cliBuildUploadPhase opts hasBuildConfig t).builderInvoked = false ∧
      (opts.skipUpload = false →
        (cliBuildUploadPhase opts hasBuildConfig t).uploadInvoked = true)) := by
  constructor
  · rfl
  · intro hsb hnt
    refine ⟨?_, ?_, ?_⟩
    · simp [cliBuildUploadPhase, hsb]
    · simp [cliBuildUploadPhase, hsb]
    · intro hsu
      simp [cliBuildUploadPhase, hsu, skipUploadTypes]
      simpa [skipBuildTypes] using hnt

/-- Witness for the amended C5: skipBuild set, lambda-zip type (outside the
skip set), build config present, skipUpload unset. -/
theorem build_phase_gating_witness :
    (cliBuildUploadPhase ⟨true, false, false⟩ true
        "lambda-zip").buildSkippedNotified = true ∧
    (cliBuildUploadPhase ⟨true, false, false⟩ true
        "lambda-zip").builderInvoked = false ∧
    (cliBuildUploadPhase ⟨true, false, false⟩ true
        "lambda-zip").uploadInvoked = true := by
  have h := (build_phase_gating ⟨true, false, false⟩ true "lambda-zip").2 rfl (by decide)
  exact ⟨h.1, h.2.1, h.2.2 rfl⟩

/-! ## Lambda-zip staging gate (C10) -/

/-- C10. In the multi-type dispatch, a lambda-zip target triggers the
Kubernetes pod-restart path exactly when the target's environment is staging;
for every other environment the dispatch returns a skipped result with no
effect — the same soft-fail path taken for unknown deployment types. -/
theorem lambda_zip_staging_gate (denv : DispatchEnv) (serviceName : String)
    (inp : DeployTargetInput) (dryRun : Bool) (gitHash : String)
    (htype : inp.deploymentType = "lambda-zip") :
    (inp.environment = "staging" →
      dsDeploy denv serviceName inp dryRun gitHash =
        deployToKubernetes denv.k8sEnv serviceName dryRun) ∧
    (inp.environment ≠ "staging" →
      dsDeploy denv serviceName inp dryRun gitHash =
        ([], Except.ok { emptyDeploymentResult with skipped := some true })) ∧
    ∀ (other : DeployTargetInput), other.deploymentType ∉ supportedTypes →
      dsDeploy denv serviceName other dryRun gitHash =
        ([], Except.ok { emptyDeploymentResult with skipped := some true }) := by
  refine ⟨?_, ?_, ?_⟩
  · intro henv
    simp [dsDeploy, htype, henv]
  · intro henv
    simp [dsDeploy, htype, henv, dpure]
  · intro other hother
    simp [supportedTypes] at hother
    obtain ⟨h1, h2, h3, h4, h5⟩ := hother
    simp [dsDeploy, h1, h2, h3, h4, h5, dpure]

/-- Witness for C10: a lambda-zip target in production is soft-skipped, in
staging it dispatches to the pod-restart path. -/
theorem lambda_zip_staging_gate_witness :
    dsDeploy demoDispatchEnv "api" (lambdaZipInput "production") false "abc" =
      ([], Except.ok { emptyDeploymentResult with skipped := some true }) ∧
    dsDeploy demoDispatchEnv "api" (lambdaZipInput "staging") false "abc" =
      deployToKubernetes demoDispatchEnv.k8sEnv "api" false := by
  have h1 := lambda_zip_staging_gate demoDispatchEnv "api"
    (lambdaZipInput "production") false "abc" rfl
  have h2 := lambda_zip_staging_gate demoDispatchEnv "api"
    (lambdaZipInput "staging") false "abc" rfl
  exact ⟨h1.2.1 (by decide), h2.1 rfl⟩

/-! ## Dry-run behaviour of the dispatch (C4) -/

theorem runOptHooks_all_ok (cmdOk : String → Bool) (o : Option (List Hook))
    (h : ∀ c, cmdOk c = true) :
    runOptHooks cmdOk o =
      ((o.getD []).map fun x => Effect.hookExec x.name x.command, Except.ok ()) := by
  cases o with
  | none => simp [runOptHooks, dpure]
  | some l => simpa [runOptHooks] using executeHooks_all_ok cmdOk l (fun x _ => h x.command)

theorem webDeploy_dryRun (env : WebEnv) (cfg : WebConfig) :
    webDeploy env cfg true =
      ([], Except.ok
        { deployedFiles := 3,
          invalidationId := webDryRunInvalidationId cfg,
          buildTime := if jsPresent cfg.buildCommand then some 0 else none,
          deployTime := env.deployDuration }) := by
  have hb : webBuildStep env cfg true =
      ([], Except.ok (if jsPresent cfg.buildCommand then some 0 else none)) := by
    by_cases hbc : jsPresent cfg.buildCommand <;> simp [webBuildStep, hbc, dpure]
  have hs : webScanStep env cfg true = ([], Except.ok mockDryRunFiles) := by
    simp [webScanStep, dpure]
  have hup := uploadFiles_dryRun env.putOk cfg.webPath mockDryRunFiles 0
  norm_num [mockDryRunFiles] at hup
  have hi : webInvalidationStep env cfg true =
      ([], Except.ok (webDryRunInvalidationId cfg)) := by
    rcases hcf : cfg.cloudfront with _ | cf
    · simp [webInvalidationStep, webDryRunInvalidationId, hcf, dpure]
    · by_cases hid : jsPresent cf.distributionId <;>
        simp [webInvalidationStep, webDryRunInvalidationId, hcf, hid, dpure]
  have hv : ∀ n, webVerificationStep cfg true n = ([], Except.ok ()) := by
    intro n
    simp [webVerificationStep, dpure]
  simp [webDeploy, hb, hs, hup, hi, hv, dbind, dpure, mockDryRunFiles]

theorem dsDeployWeb_dryRun (cmdOk : String → Bool) (env : WebEnv)
    (hooks : Option HooksCfg) (cfg : WebConfig) (h : ∀ c, cmdOk c = true) :
    dsDeployWeb cmdOk env hooks (some cfg) true =
      (((hooks.bind HooksCfg.pre_deploy).getD []).map
          (fun x => Effect.hookExec x.name x.command) ++
        ((hooks.bind HooksCfg.post_deploy).getD []).map
          (fun x => Effect.hookExec x.name x.command),
        Except.ok
          { emptyDeploymentResult with
            deployedFiles := some 3,
            invalidationId := webDryRunInvalidationId cfg,
            buildTime := if jsPresent cfg.buildCommand then some 0 else none,
            deployTime := some env.deployDuration }) := by
  simp [dsDeployWeb, runOptHooks_all_ok cmdOk _ h, webDeploy_dryRun, dbind, dpure]

theorem gitopsDeploy_dryRun (cmdOk : String → Bool) (env : GitOpsEnv)
    (serviceName : String) (cfg : ContainerConfig) (gitHash : String)
    (hooks : Option HooksCfg) (bdf pr dgb fgb : Option String) :
    gitopsDeploy cmdOk env serviceName cfg gitHash true hooks bdf pr dgb fgb =
      ([], Except.ok
        { imageName := cfg.registry.endpoint ++ "/" ++ cfg.registry.repository ++
            ":" ++ (gitHash ++ "-" ++ toString env.now),
          imageTag := gitHash ++ "-" ++ toString env.now,
          manifestUpdated := false, commitHash := gitHash, prCreated := false }) := by
  simp [gitopsDeploy, dpure]

theorem directDeploy_dryRun (env : DirectEnv) (serviceName : String)
    (cfg : ContainerConfig) (gitHash : String) :
    directDeploy env serviceName cfg gitHash true =
      ([], Except.ok
        { imageName := cfg.registry.endpoint ++ "/" ++ cfg.registry.repository ++
            ":" ++ (gitHash ++ "-" ++ toString env.now),
          imageTag := gitHash ++ "-" ++ toString env.now,
          manifestsApplied := false, podCount := 0,
          nspace := cfg.kubernetes.nspace }) := by
  simp [directDeploy, dpure]

theorem npmDeploy_dryRun (env : NpmEnv) (cfg : NpmConfig)
    (hn : jsPresent env.pkgName = true) (hv : jsPresent env.pkgVersion = true) :
    npmDeploy env cfg true =
      ([], Except.ok
        { packageName := env.pkgName.getD "",
          version := env.pkgVersion.getD "", registry := cfg.registry,
          tag := cfg.tag, published := false }) := by
  simp [npmDeploy, hn, hv, dpure]

theorem dockerhubDeploy_dryRun (env : DockerHubEnv) (cfg : DockerHubConfig)
    (gitHash : String) :
    dockerhubDeploy env cfg gitHash true =
      ([], Except.ok
        { repository := cfg.repository,
          tag := if cfg.tag == "latest" then gitHash else cfg.tag,
          additionalTags := dockerhubAdditionalTags cfg, pushed := false,
          imageName := cfg.repository ++ ":" ++
            (if cfg.tag == "latest" then gitHash else cfg.tag) }) := by
  simp [dockerhubDeploy, dpure]
/-- Counterexample to C4 as stated: with dryRun=true and one configured
pre-deploy hook, the web dispatch still spawns the hook subprocess, so a
side-effecting collaborator (a hook subprocess call) is invoked under dry
run. -/
theorem dry_run_hook_subprocess_counterexample :
    (dsDeploy demoDispatchEnv "frontend"
        { deploymentType := "web", environment := "staging",
          hooks := some
            { pre_build := none, post_build := none,
              pre_deploy := some
                [{ name := "warm-cache", description := none,
                   command := "curl -s localhost" }],
              post_deploy := none },
          web := some
            { buildCommand := none, buildDir := "dist",
              indexFile := "index.html", webPath := none, cloudfront := none,
              cacheControlHtml := "no-cache", cacheControlAssets := "public",
              verification := none },
          container := none, npm := none, dockerhub := none,
          buildDockerfile := none, deployGitOpsBasePath := none,
          projectRoot := none, fullGitOpsBasePath := none }
        true "abc").1 =
      [Effect.hookExec "warm-cache" "curl -s localhost"] := by
  rfl

/-- C4 corrected: for every supported deployment-type tag whose required
configuration is present and whose configured hook commands all succeed,
dryRun=true produces a DeploymentResult whose side-effect counts are zero or
placeholder values, and the effect trace contains only hook subprocess
executions — no container-engine, cluster-CLI, version-control,
object-storage, or CDN call (configured hooks do still run under dry run,
which refutes the claim as stated). -/
theorem dry_run_no_side_effects_except_hooks (denv : DispatchEnv)
    (serviceName : String) (inp : DeployTargetInput) (gitHash : String)
    (hsup : inp.deploymentType ∈ supportedTypes)
    (hcfg : typeConfigured inp denv)
    (hhooks : ∀ c, denv.cmdOk c = true) :
    (∀ e ∈ (dsDeploy denv serviceName inp true gitHash).1, Effect.isHook e = true) ∧
    ∃ r, (dsDeploy denv serviceName inp true gitHash).2 = Except.ok r ∧
      dryRunPlaceholderResult r = true := by
  have hookmem : ∀ (l : List Hook) (e : Effect),
      e ∈ l.map (fun x => Effect.hookExec x.name x.command) →
      Effect.isHook e = true := by
    intro l e he
    obtain ⟨x, _, hx⟩ := List.mem_map.mp he
    simp [← hx, Effect.isHook]
  simp only [supportedTypes, List.mem_cons, List.not_mem_nil, or_false] at hsup
  rcases hsup with h | h | h | h | h
  · obtain ⟨wcfg, hw⟩ := Option.isSome_iff_exists.mp (hcfg.1 h)
    have heq : dsDeploy denv serviceName inp true gitHash =
        dsDeployWeb denv.cmdOk denv.webEnv inp.hooks inp.web true := by
      simp [dsDeploy, h]
    rw [heq, hw, dsDeployWeb_dryRun denv.cmdOk denv.webEnv inp.hooks wcfg hhooks]
    refine ⟨?_, ⟨_, rfl, rfl⟩⟩
    intro e he
    rcases List.mem_append.mp he with h1 | h1
    · exact hookmem _ e h1
    · exact hookmem _ e h1
  · obtain ⟨ccfg, hc⟩ := Option.isSome_iff_exists.mp (hcfg.2.1 h)
    have heq : dsDeploy denv serviceName inp true gitHash =
        dsDeployContainer denv serviceName inp (jsOrStrS gitHash "latest") true := by
      simp [dsDeploy, h]
    rw [heq]
    by_cases hg : jsNotFalse ccfg.gitops
    · rw [show dsDeployContainer denv serviceName inp (jsOrStrS gitHash "latest") true =
          (((inp.hooks.bind HooksCfg.pre_build).getD []).map
            (fun x => Effect.hookExec x.name x.command),
           Except.ok
             { emptyDeploymentResult with
               podCount := some 0,
               container := some
                 { imageName := ccfg.registry.endpoint ++ "/" ++
                     ccfg.registry.repository ++ ":" ++
                     ((jsOrStrS gitHash "latest") ++ "-" ++
                       toString denv.gitopsEnv.now),
                   imageTag := (jsOrStrS gitHash "latest") ++ "-" ++
                     toString denv.gitopsEnv.now,
                   manifestsApplied := false, podCount := 0,
                   nspace := ccfg.kubernetes.nspace } }) from by
        simp [dsDeployContainer, hc, hg, runOptHooks_all_ok denv.cmdOk _ hhooks,
          gitopsDeploy_dryRun, dbind, dpure]]
      exact ⟨fun e he => hookmem _ e he, ⟨_, rfl, rfl⟩⟩
    · rw [show dsDeployContainer denv serviceName inp (jsOrStrS gitHash "latest") true =
          (((inp.hooks.bind HooksCfg.pre_build).getD []).map
            (fun x => Effect.hookExec x.name x.command),
           Except.ok
             { emptyDeploymentResult with
               podCount := some 0,
               container := some
                 { imageName := ccfg.registry.endpoint ++ "/" ++
                     ccfg.registry.repository ++ ":" ++
                     ((jsOrStrS gitHash "latest") ++ "-" ++
                       toString denv.directEnv.now),
                   imageTag := (jsOrStrS gitHash "latest") ++ "-" ++
                     toString denv.directEnv.now,
                   manifestsApplied := false, podCount := 0,
                   nspace := ccfg.kubernetes.nspace } }) from by
        simp [dsDeployContainer, hc, hg, runOptHooks_all_ok denv.cmdOk _ hhooks,
          directDeploy_dryRun, dbind, dpure]]
      exact ⟨fun e he => hookmem _ e he, ⟨_, rfl, rfl⟩⟩
  · obtain ⟨hns, hroot, hpn, hpv⟩ := hcfg.2.2.1 h
    obtain ⟨ncfg, hn⟩ := Option.isSome_iff_exists.mp hns
    have heq : dsDeploy denv serviceName inp true gitHash =
        dsDeployNpm denv inp true := by
      simp [dsDeploy, h]
    rw [heq]
    rw [show dsDeployNpm denv inp true =
        (((inp.hooks.bind HooksCfg.pre_deploy).getD []).map
            (fun x => Effect.hookExec x.name x.command) ++
          ((inp.hooks.bind HooksCfg.post_deploy).getD []).map
            (fun x => Effect.hookExec x.name x.command),
         Except.ok
           { emptyDeploymentResult with
             npm := some
               { packageName := denv.npmEnv.pkgName.getD "",
                 version := denv.npmEnv.pkgVersion.getD "",
                 registry := ncfg.registry, tag := ncfg.tag,
                 published := false } }) from by
      simp [dsDeployNpm, hn, hroot, runOptHooks_all_ok denv.cmdOk _ hhooks,
        npmDeploy_dryRun denv.npmEnv ncfg hpn hpv, dbind, dpure]]
    refine ⟨?_, ⟨_, rfl, rfl⟩⟩
    intro e he
    rcases List.mem_append.mp he with h1 | h1
    · exact hookmem _ e h1
    · exact hookmem _ e h1
  · obtain ⟨hds, hroot⟩ := hcfg.2.2.2 h
    obtain ⟨dcfg, hd⟩ := Option.isSome_iff_exists.mp hds
    have heq : dsDeploy denv serviceName inp true gitHash =
        dsDeployDockerHub denv inp (jsOrStrS gitHash "latest") true := by
      simp [dsDeploy, h]
    rw [heq]
    rw [show dsDeployDockerHub denv inp (jsOrStrS gitHash "latest") true =
        (((inp.hooks.bind HooksCfg.pre_build).getD []).map
            (fun x => Effect.hookExec x.name x.command) ++
          (((inp.hooks.bind HooksCfg.post_build).getD []).map
            (fun x => Effect.hookExec x.name x.command) ++
          (((inp.hooks.bind HooksCfg.pre_deploy).getD []).map
            (fun x => Effect.hookExec x.name x.command) ++
          ((inp.hooks.bind HooksCfg.post_deploy).getD []).map
            (fun x => Effect.hookExec x.name x.command))),
         Except.ok
           { emptyDeploymentResult with
             dockerhub := some
               { repository := dcfg.repository,
                 tag := if dcfg.tag == "latest" then jsOrStrS gitHash "latest"
                   else dcfg.tag,
                 additionalTags := dockerhubAdditionalTags dcfg, pushed := false,
                 imageName := dcfg.repository ++ ":" ++
                   (if dcfg.tag == "latest" then jsOrStrS gitHash "latest"
                    else dcfg.tag) } }) from by
      simp [dsDeployDockerHub, hd, hroot, runOptHooks_all_ok denv.cmdOk _ hhooks,
        dockerhubDeploy_dryRun, dbind, dpure]]
    refine ⟨?_, ⟨_, rfl, rfl⟩⟩
    intro e he
    rcases List.mem_append.mp he with h1 | h1
    · exact hookmem _ e h1
    rcases List.mem_append.mp h1 with h2 | h2
    · exact hookmem _ e h2
    rcases List.mem_append.mp h2 with h3 | h3
    · exact hookmem _ e h3
    · exact hookmem _ e h3
  · by_cases henv : inp.environment = "staging"
    · have heq : dsDeploy denv serviceName inp true gitHash =
          ([], Except.ok { emptyDeploymentResult with skipped := some true }) := by
        simp [dsDeploy, h, henv, deployToKubernetes, dpure]
      rw [heq]
      exact ⟨fun e he => by simp at he, ⟨_, rfl, rfl⟩⟩
    · have heq : dsDeploy denv serviceName inp true gitHash =
          ([], Except.ok { emptyDeploymentResult with skipped := some true }) := by
        simp [dsDeploy, h, henv, dpure]
      rw [heq]
      exact ⟨fun e he => by simp at he, ⟨_, rfl, rfl⟩⟩

/-- Witness for the corrected C4: an npm target with one configured pre-deploy
hook under dry run — the trace holds only that hook's subprocess and the
result reports the package as not published. -/
theorem dry_run_no_side_effects_except_hooks_witness :
    (dsDeploy demoDispatchEnv "svc" npmDemoInput true "abc").1.all
        Effect.isHook = true ∧
    (dsDeploy demoDispatchEnv "svc" npmDemoInput true "abc").2 =
      Except.ok
        { emptyDeploymentResult with
          npm := some
            { packageName := "acme-lib", version := "1.2.3",
              registry := "https://registry.npmjs.org/", tag := "latest",
              published := false } } := by
  have h := dry_run_no_side_effects_except_hooks demoDispatchEnv "svc" npmDemoInput
    "abc" (by decide)
    ⟨fun hx => by simp [npmDemoInput] at hx, fun hx => by simp [npmDemoInput] at hx,
      fun _ => ⟨rfl, rfl, rfl, rfl⟩, fun hx => by simp [npmDemoInput] at hx⟩
    (fun _ => rfl)
  exact ⟨List.all_eq_true.mpr (fun e he => h.1 e he), rfl⟩

end Heimdizzy
